import Mathlib

/-!
Verification development for the Enhanced Color Scale Generator.

This file gives a shallow embedding of the repository's color-math core
(color conversions, WCAG contrast, the scale generator, the accessible-color
searches, the dark-mode mirror, and CIEDE2000) and proves or refutes the
frozen specification claims about it.

Modelling conventions:
* JavaScript numbers are modelled as rationals (`ℚ`) wherever the source only
  uses field operations, `Math.min`/`Math.max`, `Math.round` and `%`; this
  keeps the embedding executable.  Code that uses `Math.pow`, `Math.sqrt` and
  trigonometry (relative luminance, CIEDE2000) is modelled over `ℝ`.
* `Math.round` rounds half-up (`⌊x + 1/2⌋`), matching JavaScript.
* The JavaScript remainder `%` truncates towards zero and keeps the sign of
  the dividend; `jsMod` below implements exactly that.
* Colors are structures mirroring the `[h,s,l]` / `[r,g,b]` / `[L,a,b]`
  arrays of the source.
-/

namespace CSG

/-- JavaScript `Math.round`: round half towards positive infinity. -/
def jsRound (q : ℚ) : ℤ := ⌊q + 1/2⌋

/-- Truncation towards zero, as used by the JavaScript `%` operator. -/
def jsTrunc (q : ℚ) : ℤ := if 0 ≤ q then ⌊q⌋ else -⌊-q⌋

/-- JavaScript remainder `a % b` (sign of the dividend, truncated division). -/
def jsMod (a b : ℚ) : ℚ := a - b * jsTrunc (a / b)

/-- HSL color: the `[h, s, l]` arrays of the source (hue in degrees,
saturation and lightness in percent). -/
structure HSL where
  h : ℚ
  s : ℚ
  l : ℚ
  deriving DecidableEq, Repr

/-- RGB color: the `[r, g, b]` arrays of the source (integer channels). -/
structure RGB where
  r : ℤ
  g : ℤ
  b : ℤ
  deriving DecidableEq, Repr

/-- `clampHSL` from `color-utils.js`: wrap hue into `[0,360)` and clamp
saturation and lightness into `[0,100]`. -/
def clampHSL (hsl : HSL) : HSL :=
  { h := jsMod (jsMod hsl.h 360 + 360) 360
    s := max 0 (min 100 hsl.s)
    l := max 0 (min 100 hsl.l) }

/-- `isNeutralColor` from the updated color-utils module
(`src/unnamed/part_002`, lines 524–526): saturation strictly below 15.
The repository also contains a stale copy (`src/js/color-utils.js`, threshold
10), but the generator (`scale-generator.js`) depends on `rgbToLch` and
`calculateDeltaE`, which exist only in the updated module, so the updated
module is the one the application loads; its comment records the change
("Updated threshold from 10% to 15%"). -/
def isNeutralColor (hsl : HSL) : Bool := hsl.s < 15

/-- The superseded `isNeutralColor` of the stale copy in
`src/js/color-utils.js` (threshold 10), kept for reference. -/
def isNeutralColorStale (hsl : HSL) : Bool := hsl.s < 10

/-- `rgbToHSL` from `color-utils.js`.  The `switch (max)` of the source
matches `case r` first, then `case g`, then `case b`, which the nested `if`
below reproduces. -/
def rgbToHSL (c : RGB) : HSL :=
  let r : ℚ := (c.r : ℚ) / 255
  let g : ℚ := (c.g : ℚ) / 255
  let b : ℚ := (c.b : ℚ) / 255
  let mx := max r (max g b)
  let mn := min r (min g b)
  let diff := mx - mn
  let l := (mx + mn) / 2
  if diff = 0 then
    { h := jsRound 0, s := jsRound 0, l := jsRound (l * 100) }
  else
    let s := if 1/2 < l then diff / (2 - mx - mn) else diff / (mx + mn)
    let h :=
      if mx = r then (g - b) / diff + (if g < b then 6 else 0)
      else if mx = g then (b - r) / diff + 2
      else (r - g) / diff + 4
    { h := jsRound (h / 6 * 360), s := jsRound (s * 100), l := jsRound (l * 100) }

/-- The `hue2rgb` helper of `hslToRgb` in `color-utils.js`. -/
def hue2rgb (p q t : ℚ) : ℚ :=
  let t := if t < 0 then t + 1 else t
  let t := if 1 < t then t - 1 else t
  if t < 1/6 then p + (q - p) * 6 * t
  else if t < 1/2 then q
  else if t < 2/3 then p + (q - p) * (2/3 - t) * 6
  else p

/-- `hslToRgb` from `color-utils.js`. -/
def hslToRgb (hsl : HSL) : RGB :=
  let h := hsl.h / 360
  let s := hsl.s / 100
  let l := hsl.l / 100
  if s = 0 then
    let gray := jsRound (l * 255)
    { r := gray, g := gray, b := gray }
  else
    let q := if l < 1/2 then l * (1 + s) else l + s - l * s
    let p := 2 * l - q
    { r := jsRound (hue2rgb p q (h + 1/3) * 255)
      g := jsRound (hue2rgb p q h * 255)
      b := jsRound (hue2rgb p q (h - 1/3) * 255) }

/-! ## Scale generator (`scale-generator.js`) -/

/-- Stable insertion step: insert `x` after all elements whose key is `≤` its
own.  Together with `jsSortBy` this models the (stable) JavaScript
`Array.prototype.sort` with an `(a, b) => key a - key b` comparator. -/
def insertSorted {α β : Type} [LinearOrder β] (key : α → β) (x : α) :
    List α → List α
  | [] => [x]
  | y :: ys => if key y ≤ key x then y :: insertSorted key x ys else x :: y :: ys

/-- Stable sort by a numeric key (JavaScript `sort((a,b) => key a - key b)`). -/
def jsSortBy {α β : Type} [LinearOrder β] (key : α → β) (l : List α) : List α :=
  l.foldl (fun acc x => insertSorted key x acc) []

/-- A scale configuration: its ordered list of levels.  The `name` and
`description` strings of the source are presentational only and omitted. -/
structure ScaleConfig where
  levels : List ℤ
  deriving DecidableEq, Repr

/-- `SCALE_CONFIGURATIONS` from `scale-generator.js` (the four recognized
configuration keys). -/
def SCALE_CONFIGURATIONS : List (String × ScaleConfig) :=
  [("triad", ⟨[300, 400, 600]⟩),
   ("pentatonic", ⟨[200, 300, 400, 500, 600]⟩),
   ("diatonic", ⟨[100, 200, 300, 400, 500, 600, 700]⟩),
   ("chromatic", ⟨[50, 100, 200, 300, 400, 500, 600, 700, 800]⟩)]

/-- `getBaseLevelForConfiguration`: 400 when present, otherwise the middle of
the sorted level list (`sortedLevels[Math.floor(length / 2)]`).  The `getD`
default is never reached for a non-empty list. -/
def getBaseLevelForConfiguration (levels : List ℤ) : ℤ :=
  if 400 ∈ levels then 400
  else
    let sortedLevels := jsSortBy id levels
    sortedLevels.getD (sortedLevels.length / 2) 0

/-- `calculateNeutralHSL` from `scale-generator.js`: fixed anchors 95/28 and
a `-2` saturation reduction at the extreme levels. -/
def calculateNeutralHSL (hsl400 : HSL) (level : ℤ) : HSL :=
  let lightestL : ℚ := 95
  let darkestL : ℚ := 28
  let targetL : ℚ :=
    if level < 400 then
      hsl400.l + (lightestL - hsl400.l) * ((400 - level : ℤ) : ℚ) / 350
    else
      hsl400.l - (hsl400.l - darkestL) * ((level - 400 : ℤ) : ℚ) / 400
  let targetL := max darkestL (min lightestL targetL)
  let targetS := if level ≤ 100 ∨ 700 ≤ level then max 0 (hsl400.s - 2) else hsl400.s
  { h := hsl400.h, s := targetS, l := (jsRound targetL : ℤ) }

/-- The record returned by `calculateDynamicBoundaries`. -/
structure Boundaries where
  lightestL : ℚ
  lightestS : ℚ
  darkestL : ℚ
  darkestS : ℚ
  lightHueShift : ℚ
  darkHueShift : ℚ
  deriving DecidableEq, Repr

/-- `calculateDynamicBoundaries` from `scale-generator.js`: regime-dependent
interpolation targets derived from the base lightness and saturation. -/
def calculateDynamicBoundaries (hsl400 : HSL) : Boundaries :=
  let baseS := hsl400.s
  let baseL := hsl400.l
  let lightestL := min 94 (baseL + 44)
  let lightestS := max 0 (baseS - 1)
  let darkestL := max 24 (baseL - 26)
  let darkestS := min 100 (baseS + 28)
  let lightestL := if 80 < baseL then min 96 (baseL + 16) else
    if baseL < 30 then min 92 (baseL + 55) else lightestL
  let darkestL := if 80 < baseL then max 20 (baseL - 35) else
    if baseL < 30 then max 15 (baseL - 15) else darkestL
  let lightestS := if 80 < baseS then max 0 (baseS - 15) else
    if baseS < 30 then max 0 (baseS - 5) else lightestS
  let darkestS := if 80 < baseS then min 100 (baseS + 10) else
    if baseS < 30 then min 100 (baseS + 35) else darkestS
  { lightestL := lightestL, lightestS := lightestS,
    darkestL := darkestL, darkestS := darkestS,
    lightHueShift := 0, darkHueShift := 0 }

/-- `getLevelAdjustments` from `scale-generator.js`: the per-level
micro-adjustment table, as a pair (lightness adjustment, saturation
adjustment). -/
def getLevelAdjustments (level : ℤ) : ℚ × ℚ :=
  if level = 50 then (2, 0)
  else if level = 100 then (1, 0)
  else if level = 200 then (0, -1)
  else if level = 600 then (0, 2)
  else if level = 700 then (0, 3)
  else if level = 800 then (-2, 5)
  else (0, 0)

/-- `calculateNonNeutralHSL` from `scale-generator.js`: piecewise linear
interpolation towards the dynamic boundaries, plus the per-level
micro-adjustments, re-clamped at the end. -/
def calculateNonNeutralHSL (hsl400 : HSL) (level : ℤ) : HSL :=
  let boundaries := calculateDynamicBoundaries hsl400
  let lighter := level < 400
  let factorLight : ℚ := ((400 - level : ℤ) : ℚ) / 350
  let factorDark : ℚ := ((level - 400 : ℤ) : ℚ) / 400
  let targetL :=
    if lighter then hsl400.l + (boundaries.lightestL - hsl400.l) * factorLight
    else hsl400.l + (boundaries.darkestL - hsl400.l) * factorDark
  let targetS :=
    if lighter then hsl400.s + (boundaries.lightestS - hsl400.s) * factorLight
    else hsl400.s + (boundaries.darkestS - hsl400.s) * factorDark
  let targetH :=
    if lighter then
      (if level ≤ 100 then jsMod (hsl400.h + boundaries.lightHueShift) 360 else hsl400.h)
    else
      (if 700 ≤ level then jsMod (hsl400.h + boundaries.darkHueShift) 360 else hsl400.h)
  let adjustments := getLevelAdjustments level
  clampHSL { h := targetH, s := targetS + adjustments.2, l := targetL + adjustments.1 }

/-- `calculateHSL` from `scale-generator.js`: base level passthrough, then
the neutral / non-neutral branch on `isNeutralColor`. -/
def calculateHSL (hsl400 : HSL) (level : ℤ) : HSL :=
  if level = 400 then hsl400
  else if isNeutralColor hsl400 then calculateNeutralHSL hsl400 level
  else calculateNonNeutralHSL hsl400 level

/-- One entry of a color scale.  The source's color objects also carry a hex
string (determined by `rgb`) and the accessibility report (derived purely
from `rgb` by `getContrastInfo`, modelled separately below, since it lives
over `ℝ`). -/
structure Swatch where
  level : ℤ
  hsl : HSL
  rgb : RGB
  isBase : Bool
  deriving DecidableEq, Repr

/-- `createColorScale` from `scale-generator.js`.  Unknown configuration keys
throw in the source; here they yield `none`. -/
def createColorScale (baseHSL : HSL) (configuration : String) :
    Option (List Swatch) :=
  (SCALE_CONFIGURATIONS.lookup configuration).map fun config =>
    let clampedBaseHSL := clampHSL baseHSL
    let baseLevelForConfig := getBaseLevelForConfiguration config.levels
    config.levels.map fun level =>
      let hsl := if level = baseLevelForConfig then clampedBaseHSL
                 else calculateHSL clampedBaseHSL level
      { level := level, hsl := hsl, rgb := hslToRgb hsl,
        isBase := level = baseLevelForConfig }

/-! ## Dark-mode generator (`dark-mode-generator.js`) -/

/-- `createDarkModeLevelMapping` from `dark-mode-generator.js`, as the
association list (light level, dark level) it builds.  Levels are sorted
ascending; with 400 present, each level maps to the level at the mirrored
index on the opposite side of 400's index, clamped to the array bounds;
without 400, to the level at the reversed index.  The `getD` defaults are
unreachable because all computed indices are in bounds. -/
def createDarkModeLevelMapping (lightModeScale : List Swatch) : List (ℤ × ℤ) :=
  let levels := jsSortBy id (lightModeScale.map (·.level))
  match levels.findIdx? (· = 400) with
  | none =>
      levels.enum.map fun p => (p.2, levels.getD (levels.length - 1 - p.1) 0)
  | some centerIndex =>
      levels.enum.map fun p =>
        if p.2 = 400 then (p.2, 400)
        else if p.1 < centerIndex then
          (p.2, levels.getD (min (levels.length - 1) (centerIndex + (centerIndex - p.1))) 0)
        else
          (p.2, levels.getD (centerIndex - (p.1 - centerIndex)) 0)

/-- `applyDarkModeAdjustments` from `dark-mode-generator.js`: saturation
boost for non-neutral colors, per-side lightness floor/ceiling, and a
contrast-factor scaling, re-clamped. -/
def applyDarkModeAdjustments (hsl : HSL) (level : ℤ)
    (saturationBoost contrastAdjustment : ℚ) : HSL :=
  let s := if isNeutralColor hsl then hsl.s else min 100 (hsl.s + saturationBoost)
  let l := if level < 400 then max hsl.l 65
           else if 400 < level then min hsl.l 35 else hsl.l
  let contrastFactor := 1 + contrastAdjustment
  let l := if 50 < l then min 100 (l * contrastFactor) else max 0 (l / contrastFactor)
  clampHSL { h := hsl.h, s := s, l := l }

/-- `applyLevelSpecificDarkModeAdjustments` from `dark-mode-generator.js`. -/
def applyLevelSpecificDarkModeAdjustments (hsl : HSL)
    (targetLevel originalLevel : ℤ) : HSL :=
  let s := hsl.s
  let l := hsl.l
  let (s, l) :=
    if originalLevel ≤ 200 ∧ 600 ≤ targetLevel then (min 100 (s + 8), min l 30)
    else if 600 ≤ originalLevel ∧ targetLevel ≤ 200 then (max 0 (s - 3), max l 70)
    else (s, l)
  let (s, l) :=
    if targetLevel = 50 then (s, max l 85)
    else if targetLevel = 800 then (min 100 (s + 10), min l 25)
    else (s, l)
  clampHSL { h := hsl.h, s := s, l := l }

/-- `calculateDarkModeHSL` from `dark-mode-generator.js` (the fallback used
when no light swatch exists at the mapped level). -/
def calculateDarkModeHSL (baseHSL : HSL) (targetLevel originalLevel : ℤ) : HSL :=
  applyLevelSpecificDarkModeAdjustments (calculateHSL baseHSL targetLevel)
    targetLevel originalLevel

/-- The options object of `generateDarkModeScale`.  `accessibleBaseHSL` is
the nullable JavaScript value. -/
structure DarkModeOptions where
  useAccessibleBase : Bool := false
  accessibleBaseHSL : Option HSL := none
  saturationBoost : ℚ := 5
  contrastAdjustment : ℚ := 1/10

/-- The `darkModeBaseHSL` selection of `generateDarkModeScale`:
`useAccessibleBase && accessibleBaseHSL ? accessibleBaseHSL : baseHSL`. -/
def darkBaseOf (baseHSL : HSL) (options : DarkModeOptions) : HSL :=
  if options.useAccessibleBase then options.accessibleBaseHSL.getD baseHSL
  else baseHSL

/-- The `levelMapping[lightColor.level]` lookup of `generateDarkModeScale`.
The lookup always succeeds for levels of the scale (the mapping's keys are
exactly those levels), so the `getD` default is unreachable. -/
def mappedLevel (lightModeScale : List Swatch) (level : ℤ) : ℤ :=
  (List.lookup level (createDarkModeLevelMapping lightModeScale)).getD level

/-- `generateDarkModeScale` from `dark-mode-generator.js`.  The mapping
lookup always succeeds for levels of the scale (the mapping's keys are
exactly those levels), so the `getD` default is unreachable.  As in the
source, level 400 takes the dark base color directly and skips the dark-mode
adjustments, while every other level copies the light swatch at the mapped
level (or, if absent, re-generates) and then applies the adjustments. -/
def generateDarkModeScale (lightModeScale : List Swatch) (baseHSL : HSL)
    (options : DarkModeOptions) : List Swatch :=
  let darkModeBaseHSL := darkBaseOf baseHSL options
  lightModeScale.map fun lightColor =>
    let targetLevel := mappedLevel lightModeScale lightColor.level
    let darkHSL :=
      if lightColor.level = (400 : ℤ) then darkModeBaseHSL
      else
        match lightModeScale.find? (fun c => c.level = targetLevel) with
        | some targetLightColor => targetLightColor.hsl
        | none => calculateDarkModeHSL darkModeBaseHSL targetLevel lightColor.level
    let darkHSL :=
      if lightColor.level ≠ (400 : ℤ) then
        applyDarkModeAdjustments darkHSL lightColor.level
          options.saturationBoost options.contrastAdjustment
      else darkHSL
    { level := lightColor.level, hsl := darkHSL, rgb := hslToRgb darkHSL,
      isBase := lightColor.level = (400 : ℤ) }

/-! ## Relative luminance and WCAG contrast (`color-utils.js`, `accessibility.js`)

These use `Math.pow(_, 2.4)`, so they live over `ℝ` and are noncomputable. -/

/-- Rounding to an integer over `ℝ` (JavaScript `Math.round`). -/
noncomputable def jsRoundR (x : ℝ) : ℤ := ⌊x + 1/2⌋

/-- The per-channel linearization inside `calculateLuminance`
(`color-utils.js`): `v ≤ 0.03928 ? v/12.92 : ((v+0.055)/1.055)^2.4` on the
channel scaled to `[0,1]`. -/
noncomputable def linearizeChannel (v : ℤ) : ℝ :=
  let x : ℝ := (v : ℝ) / 255
  if x ≤ 0.03928 then x / 12.92 else ((x + 0.055) / 1.055) ^ (2.4 : ℝ)

/-- `calculateLuminance` from `color-utils.js`. -/
noncomputable def calculateLuminance (c : RGB) : ℝ :=
  0.2126 * linearizeChannel c.r + 0.7152 * linearizeChannel c.g +
    0.0722 * linearizeChannel c.b

/-- `getContrastRatio` from `accessibility.js`: the WCAG ratio, rounded to
two decimals (`Math.round(x * 100) / 100`). -/
noncomputable def getContrastRatio (rgb1 rgb2 : RGB) : ℝ :=
  let l1 := calculateLuminance rgb1
  let l2 := calculateLuminance rgb2
  let lighter := max l1 l2
  let darker := min l1 l2
  (jsRoundR ((lighter + 0.05) / (darker + 0.05) * 100) : ℝ) / 100

/-- Pure black, `[0, 0, 0]`. -/
def blackRGB : RGB := ⟨0, 0, 0⟩

/-- Pure white, `[255, 255, 255]`. -/
def whiteRGB : RGB := ⟨255, 255, 255⟩

/-- The object returned by `getContrastInfo` (`accessibility.js`): the two
ratios.  The boolean fields of the source are the derived predicates below. -/
structure ContrastInfo where
  blackRatio : ℝ
  whiteRatio : ℝ

/-- `getContrastInfo` from `accessibility.js`. -/
noncomputable def getContrastInfo (rgb : RGB) : ContrastInfo :=
  { blackRatio := getContrastRatio rgb blackRGB
    whiteRatio := getContrastRatio rgb whiteRGB }

/-- `blackPassesNormal` of `getContrastInfo`: black-text ratio at least 4.5. -/
def ContrastInfo.blackPassesNormal (ci : ContrastInfo) : Prop := 4.5 ≤ ci.blackRatio

/-- `blackPassesLarge` of `getContrastInfo`: black-text ratio at least 3.0. -/
def ContrastInfo.blackPassesLarge (ci : ContrastInfo) : Prop := 3.0 ≤ ci.blackRatio

/-- `whitePassesNormal` of `getContrastInfo`: white-text ratio at least 4.5. -/
def ContrastInfo.whitePassesNormal (ci : ContrastInfo) : Prop := 4.5 ≤ ci.whiteRatio

/-- `whitePassesLarge` of `getContrastInfo`: white-text ratio at least 3.0. -/
def ContrastInfo.whitePassesLarge (ci : ContrastInfo) : Prop := 3.0 ≤ ci.whiteRatio

/-- All four pass flags of an accessibility evaluation. -/
def ContrastInfo.passesAllFour (ci : ContrastInfo) : Prop :=
  ci.blackPassesNormal ∧ ci.blackPassesLarge ∧
    ci.whitePassesNormal ∧ ci.whitePassesLarge

/-- `isColorAccessibleByMode` from `ui-controller.js`: which subset of the
four flags must hold under each accessibility mode; unknown modes fail. -/
def isColorAccessibleByMode (ci : ContrastInfo) (accessibilityMode : String) : Prop :=
  if accessibilityMode = "full" then
    ci.blackPassesNormal ∧ ci.blackPassesLarge ∧
      ci.whitePassesNormal ∧ ci.whitePassesLarge
  else if accessibilityMode = "black-only" then
    ci.blackPassesNormal ∧ ci.blackPassesLarge
  else if accessibilityMode = "white-only" then
    ci.whitePassesNormal ∧ ci.whitePassesLarge
  else False

/-- `calculateAccessibilityScore` from `accessibility.js`: the black ratio,
the white ratio, or (for any other `textColor` string, including the default
`'both'`) the better of the two. -/
noncomputable def calculateAccessibilityScore (hsl : HSL) (textColor : String) : ℝ :=
  let rgb := hslToRgb hsl
  if textColor = "black" then getContrastRatio rgb blackRGB
  else if textColor = "white" then getContrastRatio rgb whiteRGB
  else max (getContrastRatio rgb blackRGB) (getContrastRatio rgb whiteRGB)

/-! ## Search-range helpers (`accessibility.js`, `ui-controller.js`)

`jsRangeUp`/`jsRangeDown` model the JavaScript counting loops
`for (let i = start; i <= bound; i += step)` /
`for (let i = start; i >= bound; i -= step)`; a non-positive step (which
never occurs: all steps in the source are positive constants) is modelled as
an empty range. -/

/-- Ascending loop values `start, start+step, …` while `≤ bound`. -/
def jsRangeUp (start bound step : ℚ) : List ℚ :=
  if step ≤ 0 ∨ bound < start then []
  else (List.range ((⌊(bound - start) / step⌋).toNat + 1)).map
    fun k => start + (k : ℚ) * step

/-- Descending loop values `start, start-step, …` while `≥ bound`. -/
def jsRangeDown (start bound step : ℚ) : List ℚ :=
  if step ≤ 0 ∨ start < bound then []
  else (List.range ((⌊(start - bound) / step⌋).toNat + 1)).map
    fun k => start - (k : ℚ) * step

/-- First-occurrence de-duplication, modelling `[...new Set(range)]`. -/
def jsDedup (l : List ℚ) : List ℚ :=
  l.foldl (fun acc x => if x ∈ acc then acc else acc ++ [x]) []

/-- `generateHueRange` from `accessibility.js`. -/
def generateHueRange (centerHue tolerance : ℚ) : List ℚ :=
  if tolerance = 0 then [centerHue]
  else
    let step := min 15 (tolerance / 3)
    centerHue :: (jsRangeUp step tolerance step).flatMap
      fun i => [jsMod (centerHue + i) 360, jsMod (centerHue - i + 360) 360]

/-- `generateSmartSaturationRange` from `accessibility.js`. -/
def generateSmartSaturationRange (originalS originalL : ℚ) : List ℚ :=
  let range := [originalS]
  let range := range ++
    (if 80 < originalL ∨ originalL < 20 then
      ([10, 20, 30] : List ℚ).filterMap fun step =>
        if 0 ≤ originalS - step then some (originalS - step) else none
     else [])
  let range := range ++
    (if originalS < 70 then
      ([15, 30] : List ℚ).filterMap fun step =>
        if originalS + step ≤ 100 then some (originalS + step) else none
     else [])
  let range := range ++ (if 20 < originalS then [max 0 (originalS - 40)] else [])
  let range := range ++ (if originalS < 80 then [min 100 (originalS + 40)] else [])
  jsSortBy (fun a => |a - originalS|) (jsDedup range)

/-- `generateSmartLightnessRange` from `accessibility.js`. -/
def generateSmartLightnessRange (originalL targetRatio : ℚ) : List ℚ :=
  let darkTarget : ℚ := if 7 ≤ targetRatio then 25 else 35
  let lightTarget : ℚ := if 7 ≤ targetRatio then 75 else 65
  let range := [originalL]
  let range := range ++
    (if 50 < originalL then
      jsRangeDown (originalL - 10) darkTarget 10 ++
        jsRangeUp (originalL + 10) lightTarget 10
     else
      jsRangeUp (originalL + 10) lightTarget 10 ++
        jsRangeDown (originalL - 10) darkTarget 10)
  let range := range ++ [5, 15, 25, 75, 85, 95]
  jsSortBy (fun a => |a - originalL|) (jsDedup range)

/-- `generateSearchRange` from `accessibility.js` (pushes the raw center,
then symmetric steps, then the missing boundaries; sorts by distance from
the center; no de-duplication). -/
def generateSearchRange (center mn mx step : ℚ) : List ℚ :=
  let range := center :: (jsRangeUp step (max (center - mn) (mx - center)) step).flatMap
    fun i => (if mn ≤ center - i then [center - i] else []) ++
             (if center + i ≤ mx then [center + i] else [])
  let range := range ++ (if mn ∈ range then [] else [mn])
  let range := range ++ (if mx ∈ range then [] else [mx])
  jsSortBy (fun a => |a - center|) range

/-- The `generateSearchRange` variant shared by `ui-controller.js` and
`dark-mode-generator.js` (pushes the center clamped into `[mn, mx]`, adds no
boundaries). -/
def generateSearchRangeUI (center mn mx step : ℚ) : List ℚ :=
  let range := max mn (min mx center) ::
    (jsRangeUp step (max (center - mn) (mx - center)) step).flatMap
      fun i => (if mn ≤ center - i then [center - i] else []) ++
               (if center + i ≤ mx then [center + i] else [])
  jsSortBy (fun a => |a - center|) range

/-! ## Color distances -/

/-- `calculateColorDistance` as defined in `accessibility.js` (weights
0.6/0.25/0.15).  `color-utils.js` declares an older function of the same
name (weighted Euclidean); since `accessibility.js` is loaded after
`color-utils.js`, this is the definition in force at run time.  The theorems
below about `findFullyAccessibleColor` do not depend on which distance is
used. -/
def calculateColorDistance (hsl1 hsl2 : HSL) : ℚ :=
  let hueDiff := |hsl1.h - hsl2.h|
  let hueDiff := if 180 < hueDiff then 360 - hueDiff else hueDiff
  hueDiff / 180 * 0.6 * 100 + |hsl1.s - hsl2.s| / 100 * 0.25 * 100 +
    |hsl1.l - hsl2.l| / 100 * 0.15 * 100

/-- `calculateEnhancedColorDistance` from `accessibility.js`.  Uses
`Math.pow(·, 1.5)`, hence lives over `ℝ`. -/
noncomputable def calculateEnhancedColorDistance (hsl1 hsl2 : HSL)
    (huePreservationWeight : ℚ) : ℝ :=
  let hueDiff := |hsl1.h - hsl2.h|
  let hueDiff := if 180 < hueDiff then 360 - hueDiff else hueDiff
  let hueWeight : ℝ := 0.4 + (huePreservationWeight : ℝ) * 0.4
  let satWeight : ℝ := 0.3 - (huePreservationWeight : ℝ) * 0.1
  let lightWeight : ℝ := 0.3 - (huePreservationWeight : ℝ) * 0.1
  let hueDistancePenalty : ℝ :=
    if 1/2 < huePreservationWeight then ((hueDiff / 180 : ℚ) : ℝ) ^ (1.5 : ℝ)
    else ((hueDiff / 180 : ℚ) : ℝ)
  hueDistancePenalty * hueWeight * 100 +
    (|(hsl1.s : ℝ) - (hsl2.s : ℝ)| / 100) * satWeight * 100 +
    (|(hsl1.l : ℝ) - (hsl2.l : ℝ)| / 100) * lightWeight * 100

/-! ## Fallbacks and hue families (`accessibility.js`) -/

/-- `generateHuePreservingFallbacks` from `accessibility.js`. -/
def generateHuePreservingFallbacks (originalH originalS : ℚ) : List HSL :=
  [⟨originalH, max 0 (originalS - 20), 25⟩,
   ⟨originalH, max 0 (originalS - 20), 75⟩,
   ⟨originalH, min 100 (originalS + 20), 35⟩,
   ⟨originalH, min 100 (originalS + 20), 65⟩,
   ⟨originalH, 60, 30⟩,
   ⟨originalH, 60, 70⟩,
   ⟨jsMod (originalH + 15) 360, max 20 (originalS - 10), 40⟩,
   ⟨jsMod (originalH - 15 + 360) 360, max 20 (originalS - 10), 60⟩]

/-- `getHueFamily` from `accessibility.js`. -/
def getHueFamily (hue : ℚ) : String :=
  if 0 ≤ hue ∧ hue < 30 then "red"
  else if 30 ≤ hue ∧ hue < 60 then "orange"
  else if 60 ≤ hue ∧ hue < 90 then "yellow"
  else if 90 ≤ hue ∧ hue < 150 then "green"
  else if 150 ≤ hue ∧ hue < 210 then "cyan"
  else if 210 ≤ hue ∧ hue < 270 then "blue"
  else if 270 ≤ hue ∧ hue < 330 then "purple"
  else "red"

/-- `getAccessibleColorForHueFamily` from `accessibility.js`: the canonical
accessible swatch per family, defaulting to the accessible blue. -/
def getAccessibleColorForHueFamily (hueFamily : String) : HSL :=
  if hueFamily = "red" then ⟨0, 60, 45⟩
  else if hueFamily = "orange" then ⟨30, 70, 40⟩
  else if hueFamily = "yellow" then ⟨50, 80, 35⟩
  else if hueFamily = "green" then ⟨120, 60, 35⟩
  else if hueFamily = "cyan" then ⟨180, 60, 40⟩
  else if hueFamily = "blue" then ⟨210, 65, 45⟩
  else if hueFamily = "purple" then ⟨270, 60, 40⟩
  else ⟨210, 60, 45⟩

/-! ## The staged accessible-color search (`findAccessibleColor`)

The source's mutable locals (`bestColor`, `bestScore`, `bestDistance`,
`iterations`, `foundAccessible`) become a state record; `bestDistance`
starts at JavaScript `Infinity`, modelled as `⊤ : EReal`.  The nested loops
with `break` become structural recursions that stop consuming their list
when the corresponding `break` fires; a `break` of the innermost loop leaves
the enclosing loops running, exactly as in the source. -/

/-- The options object of `findAccessibleColor`, with the source defaults. -/
structure SearchOptions where
  targetRatio : ℚ := 4.5
  maxIterations : ℕ := 150
  preserveHue : Bool := true
  allowSaturationChange : Bool := true
  textColor : String := "both"
  huePreservationWeight : ℚ := 0.8

/-- One search stage of `findAccessibleColor` (the unused `priority` field
of the source is dropped). -/
structure SearchStage where
  hueRange : List ℚ
  saturationRange : List ℚ
  lightnessRange : List ℚ

/-- The `searchStages` array built inside `findAccessibleColor`. -/
def searchStages (originalHSL : HSL) (opts : SearchOptions) : List SearchStage :=
  [{ hueRange := if opts.preserveHue then [originalHSL.h]
                 else generateHueRange originalHSL.h 15
     saturationRange := if opts.allowSaturationChange then
         generateSmartSaturationRange originalHSL.s originalHSL.l
       else [originalHSL.s]
     lightnessRange := generateSmartLightnessRange originalHSL.l opts.targetRatio },
   { hueRange := if opts.preserveHue then generateHueRange originalHSL.h 30
                 else generateHueRange originalHSL.h 45
     saturationRange := if opts.allowSaturationChange then
         generateSearchRange originalHSL.s 0 100 15
       else [originalHSL.s]
     lightnessRange := generateSearchRange originalHSL.l 0 100 5 },
   { hueRange := if opts.preserveHue then generateHueRange originalHSL.h 60
                 else generateSearchRange originalHSL.h 0 360 30
     saturationRange := if opts.allowSaturationChange then
         generateSearchRange originalHSL.s 0 100 20
       else [originalHSL.s]
     lightnessRange := generateSearchRange originalHSL.l 0 100 10 }]

/-- The mutable locals of `findAccessibleColor` as a state record. -/
structure SearchState where
  bestColor : HSL
  bestScore : ℝ
  bestDistance : EReal
  iterations : ℕ
  foundAccessible : Prop

/-- `evaluateColorCandidate` from `accessibility.js`.  The source's
`candidate`, `current`, `original` and `huePreservationWeight` parameters
are unused in its body and dropped here. -/
noncomputable def evaluateColorCandidate (candidateScore currentScore : ℝ)
    (candidateDistance : ℝ) (currentDistance : EReal) (targetRatio : ℝ) : Prop :=
  let candidateAccessible := targetRatio ≤ candidateScore
  let currentAccessible := targetRatio ≤ currentScore
  if candidateAccessible ∧ ¬currentAccessible then True
  else if currentAccessible ∧ ¬candidateAccessible then False
  else if candidateAccessible ∧ currentAccessible then
    (↑(candidateDistance + 1 / candidateScore * 10) : EReal) <
      currentDistance + ↑(1 / currentScore * 10)
  else if |candidateScore - currentScore| < 0.1 then
    (↑candidateDistance : EReal) < currentDistance
  else currentScore < candidateScore

open Classical in
/-- The innermost (`saturation`) loop of `findAccessibleColor`.  Note the
post-increment `iterations++ > maxIterations` of the source: the counter is
always incremented, and the loop breaks when its previous value exceeded the
maximum. -/
noncomputable def searchSatLoop (originalHSL : HSL) (opts : SearchOptions)
    (h l : ℚ) : List ℚ → SearchState → SearchState
  | [], st => st
  | s :: rest, st =>
    if opts.maxIterations < st.iterations then
      { st with iterations := st.iterations + 1 }
    else
      let st := { st with iterations := st.iterations + 1 }
      let candidateHSL : HSL := ⟨h, s, l⟩
      let score := calculateAccessibilityScore candidateHSL opts.textColor
      let distance := calculateEnhancedColorDistance originalHSL candidateHSL
        opts.huePreservationWeight
      let isAccessible := (opts.targetRatio : ℝ) ≤ score
      let isBetter := evaluateColorCandidate score st.bestScore distance
        st.bestDistance (opts.targetRatio : ℝ)
      if isBetter then
        let st' : SearchState :=
          { st with bestColor := candidateHSL, bestScore := score,
                    bestDistance := (distance : EReal),
                    foundAccessible := st.foundAccessible ∨ isAccessible }
        if isAccessible ∧ distance < 20 then st'
        else searchSatLoop originalHSL opts h l rest st'
      else searchSatLoop originalHSL opts h l rest st

open Classical in
/-- The middle (`lightness`) loop of `findAccessibleColor`. -/
noncomputable def searchLightLoop (originalHSL : HSL) (opts : SearchOptions)
    (h : ℚ) (saturationRange : List ℚ) : List ℚ → SearchState → SearchState
  | [], st => st
  | l :: rest, st =>
    let st' := searchSatLoop originalHSL opts h l saturationRange st
    if st'.foundAccessible ∧ st'.bestDistance < (20 : EReal) then st'
    else searchLightLoop originalHSL opts h saturationRange rest st'

open Classical in
/-- The outer (`hue`) loop of `findAccessibleColor`. -/
noncomputable def searchHueLoop (originalHSL : HSL) (opts : SearchOptions)
    (saturationRange lightnessRange : List ℚ) :
    List ℚ → SearchState → SearchState
  | [], st => st
  | h :: rest, st =>
    let st' := searchLightLoop originalHSL opts h saturationRange lightnessRange st
    if st'.foundAccessible ∧ st'.bestDistance < (20 : EReal) then st'
    else searchHueLoop originalHSL opts saturationRange lightnessRange rest st'

open Classical in
/-- The stage loop of `findAccessibleColor` (`if (foundAccessible) break;`
at the top of each iteration). -/
noncomputable def searchStagesLoop (originalHSL : HSL) (opts : SearchOptions) :
    List SearchStage → SearchState → SearchState
  | [], st => st
  | stage :: rest, st =>
    if st.foundAccessible then st
    else searchStagesLoop originalHSL opts rest
      (searchHueLoop originalHSL opts stage.saturationRange
        stage.lightnessRange stage.hueRange st)

open Classical in
/-- The hue-preserving fallback pass of `findAccessibleColor`: take the
first fallback that reaches the target ratio strictly closer than the
current best, then stop. -/
noncomputable def searchFallbackLoop (originalHSL : HSL) (opts : SearchOptions) :
    List HSL → SearchState → SearchState
  | [], st => st
  | fallback :: rest, st =>
    let score := calculateAccessibilityScore fallback opts.textColor
    let distance := calculateEnhancedColorDistance originalHSL fallback
      opts.huePreservationWeight
    if (opts.targetRatio : ℝ) ≤ score ∧ (distance : EReal) < st.bestDistance then
      { st with bestColor := fallback, bestScore := score,
                bestDistance := (distance : EReal), foundAccessible := True }
    else searchFallbackLoop originalHSL opts rest st

open Classical in
/-- The complete search state after the staged search and the hue-preserving
fallback pass of `findAccessibleColor` (everything between the early return
and the final hue-family fallback). -/
noncomputable def findAccessibleSearch (originalHSL : HSL)
    (opts : SearchOptions) : SearchState :=
  let init : SearchState :=
    { bestColor := originalHSL
      bestScore := calculateAccessibilityScore originalHSL opts.textColor
      bestDistance := (⊤ : EReal)
      iterations := 0
      foundAccessible := False }
  let st := searchStagesLoop originalHSL opts (searchStages originalHSL opts) init
  if st.bestScore < (opts.targetRatio : ℝ) then
    searchFallbackLoop originalHSL opts
      (generateHuePreservingFallbacks originalHSL.h originalHSL.s) st
  else st

open Classical in
/-- `findAccessibleColor` from `accessibility.js`: early return of the
original when it already reaches the target score, then the staged search,
the hue-preserving fallbacks, the hue-family fallback, and a final
`clampHSL`. -/
noncomputable def findAccessibleColor (originalHSL : HSL)
    (opts : SearchOptions) : HSL :=
  if (opts.targetRatio : ℝ) ≤ calculateAccessibilityScore originalHSL opts.textColor
  then originalHSL
  else
    let st := findAccessibleSearch originalHSL opts
    let bestColor :=
      if st.bestScore < (opts.targetRatio : ℝ) then
        getAccessibleColorForHueFamily (getHueFamily originalHSL.h)
      else st.bestColor
    clampHSL bestColor

/-! ## The full-accessibility search (`findFullyAccessibleColor`,
`ui-controller.js`)

State: the source's `bestColor`/`minDistance` pair, with
(`null`, `Infinity`) modelled as `none`. -/

/-- The render-mode argument of `findFullyAccessibleColor` (the source uses
the strings `'light'` and `'dark'`). -/
inductive RenderMode where
  | light
  | dark
  deriving DecidableEq, Repr

/-- The `searchRanges` entries of `findFullyAccessibleColor`. -/
structure UIRanges where
  lightness : List ℚ
  saturation : List ℚ
  hue : List ℚ

/-- The `searchRanges` table of `findFullyAccessibleColor`. -/
def uiSearchRanges (originalHSL : HSL) : RenderMode → UIRanges
  | .light =>
    { lightness := [25, 30, 35, 40, 45, 50]
      saturation := generateSearchRangeUI originalHSL.s 20 90 10
      hue := generateSearchRangeUI originalHSL.h 0 360 15 }
  | .dark =>
    { lightness := [60, 65, 70, 75, 80]
      saturation := generateSearchRangeUI originalHSL.s 30 80 10
      hue := generateSearchRangeUI originalHSL.h 0 360 15 }

open Classical in
/-- The innermost (`saturation`) loop of `findFullyAccessibleColor`. -/
noncomputable def ffacSatLoop (originalHSL : HSL) (accessibilityMode : String)
    (h l : ℚ) : List ℚ → Option (HSL × ℚ) → Option (HSL × ℚ)
  | [], st => st
  | s :: rest, st =>
    let candidateHSL : HSL := ⟨h, s, l⟩
    let contrastInfo := getContrastInfo (hslToRgb candidateHSL)
    if isColorAccessibleByMode contrastInfo accessibilityMode then
      let distance := calculateColorDistance originalHSL candidateHSL
      if (match st with | none => True | some p => distance < p.2) then
        if distance < 30 then some (candidateHSL, distance)
        else ffacSatLoop originalHSL accessibilityMode h l rest
          (some (candidateHSL, distance))
      else ffacSatLoop originalHSL accessibilityMode h l rest st
    else ffacSatLoop originalHSL accessibilityMode h l rest st

open Classical in
/-- The middle (`lightness`) loop of `findFullyAccessibleColor`
(`if (bestColor && minDistance < 30) break;`). -/
noncomputable def ffacLightLoop (originalHSL : HSL) (accessibilityMode : String)
    (h : ℚ) (saturationRange : List ℚ) :
    List ℚ → Option (HSL × ℚ) → Option (HSL × ℚ)
  | [], st => st
  | l :: rest, st =>
    let st' := ffacSatLoop originalHSL accessibilityMode h l saturationRange st
    if (match st' with | none => False | some p => p.2 < 30) then st'
    else ffacLightLoop originalHSL accessibilityMode h saturationRange rest st'

open Classical in
/-- The outer (`hue`) loop of `findFullyAccessibleColor`. -/
noncomputable def ffacHueLoop (originalHSL : HSL) (accessibilityMode : String)
    (saturationRange lightnessRange : List ℚ) :
    List ℚ → Option (HSL × ℚ) → Option (HSL × ℚ)
  | [], st => st
  | h :: rest, st =>
    let st' := ffacLightLoop originalHSL accessibilityMode h saturationRange
      lightnessRange st
    if (match st' with | none => False | some p => p.2 < 30) then st'
    else ffacHueLoop originalHSL accessibilityMode saturationRange
      lightnessRange rest st'

/-- `findFullyAccessibleColor` from `ui-controller.js`: sweep hue (first 8)
× lightness × saturation (first 6), keeping the passing candidate closest to
the original; `none` when no candidate passes the selected mode. -/
noncomputable def findFullyAccessibleColor (originalHSL : HSL)
    (mode : RenderMode) (accessibilityMode : String) : Option HSL :=
  let ranges := uiSearchRanges originalHSL mode
  (ffacHueLoop originalHSL accessibilityMode (ranges.saturation.take 6)
    ranges.lightness (ranges.hue.take 8) none).map (·.1)

/-! ## CIEDE2000 (`calculateDeltaE`, updated color-utils module,
`src/unnamed/part_002`)

`Math.atan2(b, a)` agrees with the complex argument of `a + b·i` on the
reals (the only divergence in JavaScript concerns the unrepresentable
negative zero), so the hue angles are modelled through `Complex.arg`. -/

/-- LAB color: the `[L, a, b]` arrays of the source. -/
structure Lab where
  L : ℝ
  a : ℝ
  b : ℝ

/-- `Math.atan2(y, x) * 180 / Math.PI`, normalized into `[0, 360)` by adding
360 to negative results, as done for `h1p`/`h2p` in `calculateDeltaE`. -/
noncomputable def hueAngleDeg (y x : ℝ) : ℝ :=
  let d := Complex.arg ⟨x, y⟩ * 180 / Real.pi
  if d < 0 then d + 360 else d

/-- The adjusted hue difference `deltahp` of `calculateDeltaE`: `h2p - h1p`,
shifted by ∓360 when its magnitude exceeds 180. -/
noncomputable def deltahpFun (h1p h2p : ℝ) : ℝ :=
  let d := h2p - h1p
  if 180 < |d| then (if h1p < h2p then d - 360 else d + 360) else d

/-- The adjusted mean hue `meanHp` of `calculateDeltaE`. -/
noncomputable def meanHueP (h1p h2p : ℝ) : ℝ :=
  let m := (h1p + h2p) / 2
  if 180 < |h1p - h2p| then (if 360 ≤ m + 180 then m + 180 - 360 else m + 180)
  else m

/-- The `G` compensation factor of `calculateDeltaE`. -/
noncomputable def ciedeG (C1 C2 : ℝ) : ℝ :=
  let meanC := (C1 + C2) / 2
  0.5 * (1 - Real.sqrt (meanC ^ 7 / (meanC ^ 7 + 25 ^ 7)))

/-- The hue-dependent weighting term `T` of `calculateDeltaE`. -/
noncomputable def ciedeT (meanHp : ℝ) : ℝ :=
  1 - 0.17 * Real.cos ((meanHp - 30) * Real.pi / 180) +
    0.24 * Real.cos (2 * meanHp * Real.pi / 180) +
    0.32 * Real.cos ((3 * meanHp + 6) * Real.pi / 180) -
    0.20 * Real.cos ((4 * meanHp - 63) * Real.pi / 180)

/-- The rotation term `RT` of `calculateDeltaE`. -/
noncomputable def ciedeRT (meanCp meanHp : ℝ) : ℝ :=
  -2 * Real.sqrt (meanCp ^ 7 / (meanCp ^ 7 + 25 ^ 7)) *
    Real.sin (60 * Real.exp (-(((meanHp - 275) / 25) ^ 2)) * Real.pi / 180)

/-- The `G` factor of `calculateDeltaE` applied to the two input chroma
values `C1 = sqrt(a1*a1 + b1*b1)`, `C2 = sqrt(a2*a2 + b2*b2)`. -/
noncomputable def ciedeGOf (lab1 lab2 : Lab) : ℝ :=
  ciedeG (Real.sqrt (lab1.a * lab1.a + lab1.b * lab1.b))
    (Real.sqrt (lab2.a * lab2.a + lab2.b * lab2.b))

/-- The adjusted `a'` of `calculateDeltaE`: `a * (1 + G)`. -/
noncomputable def aPrimeOf (G : ℝ) (lab : Lab) : ℝ := lab.a * (1 + G)

/-- The adjusted chroma `C'` of `calculateDeltaE`:
`sqrt(a' * a' + b * b)`. -/
noncomputable def cPrimeOf (G : ℝ) (lab : Lab) : ℝ :=
  Real.sqrt (aPrimeOf G lab * aPrimeOf G lab + lab.b * lab.b)

/-- The adjusted hue angle `h'` of `calculateDeltaE`:
`atan2(b, a')` in degrees, normalized into `[0, 360)`. -/
noncomputable def hPrimeOf (G : ℝ) (lab : Lab) : ℝ :=
  hueAngleDeg lab.b (aPrimeOf G lab)

/-- The tail of `calculateDeltaE` once `L`, `C'` and `h'` of both colors
are known: the deltas, the weighting functions `SL`/`SC`/`SH`, the rotation
term and the final square root, exactly as in the source. -/
noncomputable def ciedeCombine (L1 L2 C1p C2p h1p h2p : ℝ) : ℝ :=
  let deltaLp := L2 - L1
  let deltaCp := C2p - C1p
  let deltahp := deltahpFun h1p h2p
  let deltaHp := 2 * Real.sqrt (C1p * C2p) * Real.sin (deltahp * Real.pi / 360)
  let meanLp := (L1 + L2) / 2
  let meanCp := (C1p + C2p) / 2
  let meanHp := meanHueP h1p h2p
  let T := ciedeT meanHp
  let SL := 1 + (0.015 * (meanLp - 50) ^ 2) / Real.sqrt (20 + (meanLp - 50) ^ 2)
  let SC := 1 + 0.045 * meanCp
  let SH := 1 + 0.015 * meanCp * T
  let RT := ciedeRT meanCp meanHp
  Real.sqrt ((deltaLp / SL) ^ 2 + (deltaCp / SC) ^ 2 + (deltaHp / SH) ^ 2 +
    RT * (deltaCp / SC) * (deltaHp / SH))

/-- `calculateDeltaE` from the updated color-utils module: the full
CIEDE2000 color difference of two LAB values, assembled from the pieces
above in the order of the source. -/
noncomputable def calculateDeltaE (lab1 lab2 : Lab) : ℝ :=
  let G := ciedeGOf lab1 lab2
  ciedeCombine lab1.L lab2.L (cPrimeOf G lab1) (cPrimeOf G lab2)
    (hPrimeOf G lab1) (hPrimeOf G lab2)

/-! ## Range predicates used by the claims -/

/-- An HSL value is in range when its hue lies in `[0, 360)` and its
saturation and lightness lie in `[0, 100]`. -/
def hslInRange (hsl : HSL) : Prop :=
  0 ≤ hsl.h ∧ hsl.h < 360 ∧ 0 ≤ hsl.s ∧ hsl.s ≤ 100 ∧ 0 ≤ hsl.l ∧ hsl.l ≤ 100

/-- An RGB value with all three channels in `[0, 255]`. -/
def rgbInRange (c : RGB) : Prop :=
  0 ≤ c.r ∧ c.r ≤ 255 ∧ 0 ≤ c.g ∧ c.g ≤ 255 ∧ 0 ≤ c.b ∧ c.b ≤ 255

/-! # Theorems

First some arithmetic facts about the JavaScript primitives, then the
claims. -/

theorem le_jsRound_of_le {n : ℤ} {a : ℚ} (h : (n : ℚ) ≤ a) : n ≤ jsRound a := by
  unfold jsRound
  exact Int.le_floor.mpr (by linarith)

theorem jsRound_le_of_le {n : ℤ} {a : ℚ} (h : a ≤ (n : ℚ)) : jsRound a ≤ n := by
  unfold jsRound
  have : ⌊a + 1/2⌋ < n + 1 := Int.floor_lt.mpr (by push_cast; linarith)
  omega

theorem jsMod_nonneg {a b : ℚ} (hb : 0 < b) (ha : 0 ≤ a) : 0 ≤ jsMod a b := by
  unfold jsMod jsTrunc
  rw [if_pos (div_nonneg ha hb.le)]
  have h1 : ((⌊a / b⌋ : ℚ)) ≤ a / b := Int.floor_le _
  have h2 : b * (a / b) = a := by field_simp
  nlinarith

theorem jsMod_lt {a b : ℚ} (hb : 0 < b) : jsMod a b < b := by
  unfold jsMod jsTrunc
  by_cases hab : 0 ≤ a / b
  · rw [if_pos hab]
    have h1 : a / b < (⌊a / b⌋ : ℚ) + 1 := Int.lt_floor_add_one _
    have h2 : b * (a / b) = a := by field_simp
    nlinarith
  · rw [if_neg hab]
    push_neg at hab
    have h1 : ((⌊-(a / b)⌋ : ℚ)) ≤ -(a / b) := Int.floor_le _
    have h2 : b * (a / b) = a := by field_simp
    push_cast
    nlinarith

theorem jsRound_bounds (q : ℚ) :
    q - 1/2 < (jsRound q : ℚ) ∧ (jsRound q : ℚ) ≤ q + 1/2 := by
  unfold jsRound
  constructor
  · have := Int.lt_floor_add_one (q + 1/2)
    push_cast at this
    linarith
  · have := Int.floor_le (q + 1/2)
    push_cast at this
    linarith

theorem neg_lt_jsMod {a b : ℚ} (hb : 0 < b) : -b < jsMod a b := by
  unfold jsMod jsTrunc
  by_cases hab : 0 ≤ a / b
  · rw [if_pos hab]
    have h1 : ((⌊a / b⌋ : ℚ)) ≤ a / b := Int.floor_le _
    have h2 : b * (a / b) = a := by field_simp
    nlinarith
  · rw [if_neg hab]
    push_neg at hab
    have h1 : -(a / b) < (⌊-(a / b)⌋ : ℚ) + 1 := Int.lt_floor_add_one _
    have h2 : b * (a / b) = a := by field_simp
    push_cast
    nlinarith

theorem clampHSL_inRange (hsl : HSL) : hslInRange (clampHSL hsl) := by
  unfold clampHSL hslInRange
  have h360 : (0 : ℚ) < 360 := by norm_num
  refine ⟨?_, ?_, ?_, ?_, ?_, ?_⟩
  · exact jsMod_nonneg h360 (by have := neg_lt_jsMod (a := hsl.h) h360; linarith)
  · exact jsMod_lt h360
  · exact le_max_left 0 _
  · exact max_le (by norm_num) (min_le_left _ _)
  · exact le_max_left 0 _
  · exact max_le (by norm_num) (min_le_left _ _)

theorem insertSorted_perm {α β : Type} [LinearOrder β] (key : α → β) (x : α)
    (l : List α) : (insertSorted key x l).Perm (x :: l) := by
  induction l with
  | nil => simp [insertSorted]
  | cons y ys ih =>
    unfold insertSorted
    split
    · exact (ih.cons y).trans (List.Perm.swap x y ys)
    · exact List.Perm.refl _

theorem jsSortBy_perm {α β : Type} [LinearOrder β] (key : α → β) (l : List α) :
    (jsSortBy key l).Perm l := by
  suffices h : ∀ acc : List α,
      (l.foldl (fun acc x => insertSorted key x acc) acc).Perm (acc ++ l) by
    simpa [jsSortBy] using h []
  induction l with
  | nil => intro acc; simp
  | cons x xs ih =>
    intro acc
    simp only [List.foldl_cons]
    refine (ih (insertSorted key x acc)).trans ?_
    refine (((insertSorted_perm key x acc).append_right xs)).trans ?_
    exact List.perm_middle.symm

theorem getBaseLevel_mem {levels : List ℤ} (h : levels ≠ []) :
    getBaseLevelForConfiguration levels ∈ levels := by
  unfold getBaseLevelForConfiguration
  split
  · assumption
  · have hperm := jsSortBy_perm (β := ℤ) id levels
    have hlen : (jsSortBy id levels).length = levels.length := hperm.length_eq
    have hpos : 0 < (jsSortBy id levels).length := by
      rw [hlen]
      exact List.length_pos.mpr h
    have hlt : (jsSortBy id levels).length / 2 < (jsSortBy id levels).length :=
      Nat.div_lt_self hpos (by norm_num)
    rw [List.getD_eq_getElem _ _ hlt]
    exact hperm.mem_iff.mp (List.getElem_mem hlt)

/-- The four recognized configurations, as cases of a successful lookup. -/
theorem config_cases {key : String} {config : ScaleConfig}
    (hconfig : List.lookup key SCALE_CONFIGURATIONS = some config) :
    config = ⟨[300, 400, 600]⟩ ∨ config = ⟨[200, 300, 400, 500, 600]⟩ ∨
    config = ⟨[100, 200, 300, 400, 500, 600, 700]⟩ ∨
    config = ⟨[50, 100, 200, 300, 400, 500, 600, 700, 800]⟩ := by
  simp only [SCALE_CONFIGURATIONS, List.lookup] at hconfig
  repeat' split at hconfig
  all_goals simp_all

/-- A successful configuration lookup yields a non-empty level list. -/
theorem config_levels_ne_nil {key : String} {config : ScaleConfig}
    (hconfig : List.lookup key SCALE_CONFIGURATIONS = some config) :
    config.levels ≠ [] := by
  rcases config_cases hconfig with h | h | h | h <;> subst h <;> simp

/-- **C1.** For every input HSL color and every recognized configuration,
the swatch `createColorScale` produces at the configuration's base level
(400 when present, otherwise the middle of the sorted level list) has HSL
value exactly `clampHSL` of the input: such a swatch exists, and every
swatch at the base level carries exactly that value. -/
theorem spec_C1_base_level_invariance (baseHSL : HSL) (key : String)
    (config : ScaleConfig) (scale : List Swatch)
    (hconfig : List.lookup key SCALE_CONFIGURATIONS = some config)
    (hscale : createColorScale baseHSL key = some scale) :
    (∃ sw ∈ scale, sw.level = getBaseLevelForConfiguration config.levels ∧
      sw.hsl = clampHSL baseHSL) ∧
    ∀ sw ∈ scale, sw.level = getBaseLevelForConfiguration config.levels →
      sw.hsl = clampHSL baseHSL := by
  unfold createColorScale at hscale
  rw [hconfig] at hscale
  simp only [Option.map_some', Option.some.injEq] at hscale
  subst hscale
  constructor
  · have hmem := getBaseLevel_mem (config_levels_ne_nil hconfig)
    refine ⟨_, List.mem_map_of_mem _ hmem, rfl, ?_⟩
    simp
  · intro sw hsw hbase
    obtain ⟨l, _, rfl⟩ := List.mem_map.mp hsw
    simp only at hbase
    simp [hbase]

theorem spec_C1_witness :
    (∃ sw ∈ (createColorScale ⟨202, 57, 50⟩ "triad").getD [],
      sw.level = getBaseLevelForConfiguration (ScaleConfig.mk [300, 400, 600]).levels ∧
      sw.hsl = clampHSL ⟨202, 57, 50⟩) ∧
    ∀ sw ∈ (createColorScale ⟨202, 57, 50⟩ "triad").getD [],
      sw.level = getBaseLevelForConfiguration (ScaleConfig.mk [300, 400, 600]).levels →
      sw.hsl = clampHSL ⟨202, 57, 50⟩ :=
  spec_C1_base_level_invariance ⟨202, 57, 50⟩ "triad" ⟨[300, 400, 600]⟩ _
    (by rfl) (by rfl)

/-- The lightness the neutral branch emits is the rounding of a value
clamped into `[28, 95]`, hence lands in `[0, 100]`. -/
theorem neutral_l_bounds (x : ℚ) :
    (0 : ℚ) ≤ ((jsRound (max 28 (min 95 x)) : ℤ) : ℚ) ∧
    ((jsRound (max 28 (min 95 x)) : ℤ) : ℚ) ≤ 100 := by
  have hlow : (28 : ℤ) ≤ jsRound (max 28 (min 95 x)) :=
    le_jsRound_of_le (by exact_mod_cast le_max_left _ _)
  have hhigh : jsRound (max 28 (min 95 x)) ≤ (95 : ℤ) :=
    jsRound_le_of_le (by exact_mod_cast max_le (by norm_num) (min_le_left _ _))
  constructor
  · have h : (0 : ℤ) ≤ jsRound (max 28 (min 95 x)) := by linarith
    exact_mod_cast h
  · have h : jsRound (max 28 (min 95 x)) ≤ (100 : ℤ) := by linarith
    exact_mod_cast h

/-- `calculateHSL` keeps in-range inputs in range: the base level passes the
input through, the neutral branch stays inside the fixed anchors, and the
non-neutral branch ends in `clampHSL`. -/
theorem calculateHSL_inRange (hsl : HSL) (h : hslInRange hsl) (level : ℤ) :
    hslInRange (calculateHSL hsl level) := by
  obtain ⟨h1, h2, h3, h4, h5, h6⟩ := h
  unfold calculateHSL
  split
  · exact ⟨h1, h2, h3, h4, h5, h6⟩
  split
  · simp only [calculateNeutralHSL, hslInRange]
    refine ⟨h1, h2, ?_, ?_, (neutral_l_bounds _).1, (neutral_l_bounds _).2⟩
    · split
      · exact le_max_left 0 _
      · exact h3
    · split
      · exact max_le (by norm_num) (by linarith)
      · exact h4
  · exact clampHSL_inRange _

/-- **C10.** For every input HSL and every recognized configuration, the
scale has exactly one swatch per configured level, in the configuration's
listed order, and every swatch's HSL value is in range (hue in `[0,360)`,
saturation and lightness in `[0,100]`), including swatches from the neutral
branch, which does not end in `clampHSL`. -/
theorem spec_C10_scale_shape_and_ranges (baseHSL : HSL) (key : String)
    (config : ScaleConfig) (scale : List Swatch)
    (hconfig : List.lookup key SCALE_CONFIGURATIONS = some config)
    (hscale : createColorScale baseHSL key = some scale) :
    scale.map (·.level) = config.levels ∧
    ∀ sw ∈ scale, hslInRange sw.hsl := by
  unfold createColorScale at hscale
  rw [hconfig] at hscale
  simp only [Option.map_some', Option.some.injEq] at hscale
  subst hscale
  constructor
  · rw [List.map_map]
    induction config.levels with
    | nil => rfl
    | cons a t ih => simpa using ih
  · intro sw hsw
    obtain ⟨l, _, rfl⟩ := List.mem_map.mp hsw
    simp only
    split
    · exact clampHSL_inRange baseHSL
    · exact calculateHSL_inRange _ (clampHSL_inRange baseHSL) l

theorem spec_C10_witness :
    ((createColorScale ⟨202, 57, 50⟩ "diatonic").getD []).map (·.level) =
      (ScaleConfig.mk [100, 200, 300, 400, 500, 600, 700]).levels ∧
    ∀ sw ∈ (createColorScale ⟨202, 57, 50⟩ "diatonic").getD [],
      hslInRange sw.hsl :=
  spec_C10_scale_shape_and_ranges ⟨202, 57, 50⟩ "diatonic"
    ⟨[100, 200, 300, 400, 500, 600, 700]⟩ _ (by rfl) (by rfl)

/-- **C5.** The neutrality predicate selecting the generator's neutral
branch holds exactly when saturation is strictly below 15: `isNeutralColor`
agrees with `s < 15`, and for every non-base level `calculateHSL` branches
on that predicate. -/
theorem spec_C5_neutral_threshold (hsl : HSL) (level : ℤ) (hlevel : level ≠ 400) :
    (isNeutralColor hsl = true ↔ hsl.s < 15) ∧
    calculateHSL hsl level =
      (if hsl.s < 15 then calculateNeutralHSL hsl level
       else calculateNonNeutralHSL hsl level) := by
  constructor
  · simp [isNeutralColor]
  · by_cases h : hsl.s < 15 <;> simp [calculateHSL, isNeutralColor, hlevel, h]

theorem spec_C5_witness :
    (isNeutralColor ⟨0, 20, 50⟩ = true ↔ (HSL.mk 0 20 50).s < 15) ∧
    calculateHSL ⟨0, 20, 50⟩ 500 =
      (if (HSL.mk 0 20 50).s < 15 then calculateNeutralHSL ⟨0, 20, 50⟩ 500
       else calculateNonNeutralHSL ⟨0, 20, 50⟩ 500) :=
  spec_C5_neutral_threshold ⟨0, 20, 50⟩ 500 (by decide)

/-- **C7.** For a scale over the 7-level configuration
`{100,…,700}`, the dark-mode level mapping is exactly the mirror
`{100→700, …, 700→100}`, and applying it twice is the identity on every
configured level. -/
theorem spec_C7_mirror_involution (scale : List Swatch)
    (hlevels : scale.map (·.level) = [100, 200, 300, 400, 500, 600, 700]) :
    createDarkModeLevelMapping scale =
      [(100, 700), (200, 600), (300, 500), (400, 400),
       (500, 300), (600, 200), (700, 100)] ∧
    ∀ l ∈ ([100, 200, 300, 400, 500, 600, 700] : List ℤ),
      ((List.lookup l (createDarkModeLevelMapping scale)).bind
        fun t => List.lookup t (createDarkModeLevelMapping scale)) = some l := by
  have hmap : createDarkModeLevelMapping scale =
      [(100, 700), (200, 600), (300, 500), (400, 400),
       (500, 300), (600, 200), (700, 100)] := by
    unfold createDarkModeLevelMapping
    rw [hlevels]
    decide
  refine ⟨hmap, ?_⟩
  rw [hmap]
  decide

theorem spec_C7_witness :
    createDarkModeLevelMapping
        ([⟨100, ⟨0, 0, 0⟩, ⟨0, 0, 0⟩, false⟩, ⟨200, ⟨0, 0, 0⟩, ⟨0, 0, 0⟩, false⟩,
          ⟨300, ⟨0, 0, 0⟩, ⟨0, 0, 0⟩, false⟩, ⟨400, ⟨0, 0, 0⟩, ⟨0, 0, 0⟩, true⟩,
          ⟨500, ⟨0, 0, 0⟩, ⟨0, 0, 0⟩, false⟩, ⟨600, ⟨0, 0, 0⟩, ⟨0, 0, 0⟩, false⟩,
          ⟨700, ⟨0, 0, 0⟩, ⟨0, 0, 0⟩, false⟩] : List Swatch) =
      [(100, 700), (200, 600), (300, 500), (400, 400),
       (500, 300), (600, 200), (700, 100)] ∧
    ∀ l ∈ ([100, 200, 300, 400, 500, 600, 700] : List ℤ),
      ((List.lookup l (createDarkModeLevelMapping
          [⟨100, ⟨0, 0, 0⟩, ⟨0, 0, 0⟩, false⟩, ⟨200, ⟨0, 0, 0⟩, ⟨0, 0, 0⟩, false⟩,
           ⟨300, ⟨0, 0, 0⟩, ⟨0, 0, 0⟩, false⟩, ⟨400, ⟨0, 0, 0⟩, ⟨0, 0, 0⟩, true⟩,
           ⟨500, ⟨0, 0, 0⟩, ⟨0, 0, 0⟩, false⟩, ⟨600, ⟨0, 0, 0⟩, ⟨0, 0, 0⟩, false⟩,
           ⟨700, ⟨0, 0, 0⟩, ⟨0, 0, 0⟩, false⟩])).bind
        fun t => List.lookup t (createDarkModeLevelMapping
          [⟨100, ⟨0, 0, 0⟩, ⟨0, 0, 0⟩, false⟩, ⟨200, ⟨0, 0, 0⟩, ⟨0, 0, 0⟩, false⟩,
           ⟨300, ⟨0, 0, 0⟩, ⟨0, 0, 0⟩, false⟩, ⟨400, ⟨0, 0, 0⟩, ⟨0, 0, 0⟩, true⟩,
           ⟨500, ⟨0, 0, 0⟩, ⟨0, 0, 0⟩, false⟩, ⟨600, ⟨0, 0, 0⟩, ⟨0, 0, 0⟩, false⟩,
           ⟨700, ⟨0, 0, 0⟩, ⟨0, 0, 0⟩, false⟩])) = some l :=
  spec_C7_mirror_involution _ (by decide)

/-- Round-tripping a grayscale triple: `rgbToHSL` takes the achromatic
branch and `hslToRgb` the `s == 0` branch, giving a single rounding chain. -/
theorem gray_roundtrip_eq (v : ℤ) :
    hslToRgb (rgbToHSL ⟨v, v, v⟩) =
      ⟨jsRound ((jsRound (20 * (v : ℚ) / 51) : ℚ) / 100 * 255),
       jsRound ((jsRound (20 * (v : ℚ) / 51) : ℚ) / 100 * 255),
       jsRound ((jsRound (20 * (v : ℚ) / 51) : ℚ) / 100 * 255)⟩ := by
  have e1 : rgbToHSL ⟨v, v, v⟩ =
      ⟨0, 0, (jsRound (20 * (v : ℚ) / 51) : ℚ)⟩ := by
    unfold rgbToHSL
    simp only [max_self, min_self, sub_self, if_pos]
    have h0 : jsRound 0 = 0 := by norm_num [jsRound]
    have harg : ((v : ℚ) / 255 + (v : ℚ) / 255) / 2 * 100 = 20 * (v : ℚ) / 51 := by
      ring
    rw [harg, h0]
    norm_num
  rw [e1]
  unfold hslToRgb
  norm_num

/-- **C4 (amended).** Round-tripping a grayscale RGB triple through
`rgbToHSL` and `hslToRgb` reproduces every channel within ±1. -/
theorem spec_C4_gray_roundtrip (v : ℤ) (_h0 : 0 ≤ v) (_h255 : v ≤ 255) :
    ((hslToRgb (rgbToHSL ⟨v, v, v⟩)).r - v).natAbs ≤ 1 ∧
    ((hslToRgb (rgbToHSL ⟨v, v, v⟩)).g - v).natAbs ≤ 1 ∧
    ((hslToRgb (rgbToHSL ⟨v, v, v⟩)).b - v).natAbs ≤ 1 := by
  rw [gray_roundtrip_eq]
  set n := jsRound (20 * (v : ℚ) / 51) with hn
  set m := jsRound ((n : ℚ) / 100 * 255) with hm
  obtain ⟨b1, b2⟩ := jsRound_bounds (20 * (v : ℚ) / 51)
  obtain ⟨b3, b4⟩ := jsRound_bounds ((n : ℚ) / 100 * 255)
  rw [← hn] at b1 b2
  rw [← hm] at b3 b4
  have hq1 : ((m : ℤ) : ℚ) - (v : ℚ) < 2 := by linarith
  have hq2 : -2 < ((m : ℤ) : ℚ) - (v : ℚ) := by linarith
  have hz1 : m - v < 2 := by exact_mod_cast (by push_cast; linarith : ((m - v : ℤ) : ℚ) < 2)
  have hz2 : -2 < m - v := by exact_mod_cast (by push_cast; linarith : (-2 : ℚ) < ((m - v : ℤ) : ℚ))
  refine ⟨?_, ?_, ?_⟩ <;> · show (m - v).natAbs ≤ 1; omega

theorem spec_C4_witness :
    ((hslToRgb (rgbToHSL ⟨7, 7, 7⟩)).r - 7).natAbs ≤ 1 ∧
    ((hslToRgb (rgbToHSL ⟨7, 7, 7⟩)).g - 7).natAbs ≤ 1 ∧
    ((hslToRgb (rgbToHSL ⟨7, 7, 7⟩)).b - 7).natAbs ≤ 1 :=
  spec_C4_gray_roundtrip 7 (by norm_num) (by norm_num)

/-- **C4, counterexample.** The RGB triple `(0, 0, 2)` (all channels in
`[0, 255]`) round-trips to `(0, 0, 0)`: the blue channel moves by 2, so the
round trip is not within ±1 per channel. -/
theorem spec_C4_counterexample :
    rgbToHSL ⟨0, 0, 2⟩ = ⟨240, 100, 0⟩ ∧
    hslToRgb (rgbToHSL ⟨0, 0, 2⟩) = ⟨0, 0, 0⟩ ∧
    ¬ ((hslToRgb (rgbToHSL ⟨0, 0, 2⟩)).b - 2).natAbs ≤ 1 := by
  have e1 : rgbToHSL ⟨0, 0, 2⟩ = ⟨240, 100, 0⟩ := by
    unfold rgbToHSL
    norm_num [max_def, min_def, jsRound]
  have e2 : hslToRgb ({ h := 240, s := 100, l := 0 } : HSL) = ⟨0, 0, 0⟩ := by
    unfold hslToRgb hue2rgb
    norm_num [jsRound]
  rw [e1, e2]
  refine ⟨rfl, rfl, by norm_num⟩

/-- **C3 (amended).** In the dark scale: the swatch at level 400 takes the
caller-supplied dark base color directly (never recomputed), and every other
swatch whose mapped level exists in the light scale takes the HSL value of
the light swatch at the mapped level *and then applies the dark-mode
adjustments* (`applyDarkModeAdjustments`: saturation boost, per-side
lightness floor/ceiling, contrast-factor scaling, re-clamp) — it is not a
raw copy. -/
theorem spec_C3_dark_mirror_adjusted (lightModeScale : List Swatch)
    (baseHSL : HSL) (options : DarkModeOptions) (sw : Swatch)
    (hsw : sw ∈ generateDarkModeScale lightModeScale baseHSL options) :
    (sw.level = 400 → sw.hsl = darkBaseOf baseHSL options) ∧
    (sw.level ≠ 400 → ∀ t, lightModeScale.find?
        (fun c => c.level = mappedLevel lightModeScale sw.level) = some t →
      sw.hsl = applyDarkModeAdjustments t.hsl sw.level
        options.saturationBoost options.contrastAdjustment) := by
  unfold generateDarkModeScale at hsw
  obtain ⟨c, hc, rfl⟩ := List.mem_map.mp hsw
  constructor
  · intro h400
    simp only at h400 ⊢
    simp [h400]
  · intro hne t hfind
    simp only at hne hfind ⊢
    simp only [hfind]
    simp [hne]

theorem spec_C3_witness :
    ((⟨400, ⟨0, 0, 0⟩, ⟨0, 0, 0⟩, true⟩ : Swatch).level = 400 →
      (Swatch.mk 400 ⟨0, 0, 0⟩ ⟨0, 0, 0⟩ true).hsl =
        darkBaseOf ⟨0, 0, 0⟩ {}) ∧
    ((Swatch.mk 400 ⟨0, 0, 0⟩ ⟨0, 0, 0⟩ true).level ≠ 400 →
      ∀ t, ([⟨400, ⟨0, 0, 0⟩, ⟨0, 0, 0⟩, true⟩] : List Swatch).find?
          (fun c => c.level = mappedLevel [⟨400, ⟨0, 0, 0⟩, ⟨0, 0, 0⟩, true⟩]
            (Swatch.mk 400 ⟨0, 0, 0⟩ ⟨0, 0, 0⟩ true).level) = some t →
        (Swatch.mk 400 ⟨0, 0, 0⟩ ⟨0, 0, 0⟩ true).hsl =
          applyDarkModeAdjustments t.hsl
            (Swatch.mk 400 ⟨0, 0, 0⟩ ⟨0, 0, 0⟩ true).level
            (DarkModeOptions.mk false none 5 (1/10)).saturationBoost
            (DarkModeOptions.mk false none 5 (1/10)).contrastAdjustment) :=
  spec_C3_dark_mirror_adjusted [⟨400, ⟨0, 0, 0⟩, ⟨0, 0, 0⟩, true⟩] ⟨0, 0, 0⟩
    (DarkModeOptions.mk false none 5 (1/10)) ⟨400, ⟨0, 0, 0⟩, ⟨0, 0, 0⟩, true⟩
    (by norm_num [generateDarkModeScale, darkBaseOf, mappedLevel,
      createDarkModeLevelMapping, jsSortBy, insertSorted, hslToRgb, jsRound])

/-- **C3, counterexample.** A concrete dark scale: at level 300 (mapped to
level 600), the dark swatch's HSL is not the light scale's value at level
600 — the dark-mode adjustments change the copied value (here
`[0,50,30] ↦ [0,55,71.5]`). -/
theorem spec_C3_counterexample :
    (((generateDarkModeScale
        [⟨300, ⟨0, 50, 80⟩, ⟨0, 0, 0⟩, false⟩,
         ⟨400, ⟨0, 50, 50⟩, ⟨0, 0, 0⟩, true⟩,
         ⟨600, ⟨0, 50, 30⟩, ⟨0, 0, 0⟩, false⟩] ⟨0, 50, 50⟩ {}).find?
      (fun c => c.level = 300)).map (·.hsl)) ≠
    ((([⟨300, ⟨0, 50, 80⟩, ⟨0, 0, 0⟩, false⟩,
        ⟨400, ⟨0, 50, 50⟩, ⟨0, 0, 0⟩, true⟩,
        ⟨600, ⟨0, 50, 30⟩, ⟨0, 0, 0⟩, false⟩] : List Swatch).find?
      (fun c => c.level = 600)).map (·.hsl)) := by
  norm_num [generateDarkModeScale, darkBaseOf, mappedLevel,
    createDarkModeLevelMapping, jsSortBy, insertSorted,
    applyDarkModeAdjustments, isNeutralColor, clampHSL, jsMod, jsTrunc,
    List.lookup, List.find?]

/-! ## Luminance and contrast bounds -/

theorem le_jsRoundR_of_le {n : ℤ} {x : ℝ} (h : (n : ℝ) ≤ x) : n ≤ jsRoundR x := by
  unfold jsRoundR
  exact Int.le_floor.mpr (by linarith)

theorem jsRoundR_le_of_le {n : ℤ} {x : ℝ} (h : x ≤ (n : ℝ)) : jsRoundR x ≤ n := by
  unfold jsRoundR
  have : ⌊x + 1/2⌋ < n + 1 := Int.floor_lt.mpr (by push_cast; linarith)
  omega

theorem jsRoundR_bounds (x : ℝ) :
    x - 1/2 < (jsRoundR x : ℝ) ∧ (jsRoundR x : ℝ) ≤ x + 1/2 := by
  unfold jsRoundR
  constructor
  · have := Int.lt_floor_add_one (x + 1/2)
    push_cast at this
    linarith
  · have := Int.floor_le (x + 1/2)
    push_cast at this
    linarith

/-- Comparing `y ^ 2.4` against a bound is comparing `y ^ 12` against the
bound's fifth power (for nonnegative `y`, `c`), which turns `Math.pow(y,
2.4)` estimates into rational arithmetic. -/
theorem le_rpow_24_iff {y c : ℝ} (hy : 0 ≤ y) (hc : 0 ≤ c) :
    c ≤ y ^ (2.4 : ℝ) ↔ c ^ (5 : ℕ) ≤ y ^ (12 : ℕ) := by
  have h24 : (2.4 : ℝ) = (12 : ℝ) / 5 := by norm_num
  have hpow : (y ^ (2.4 : ℝ)) ^ (5 : ℕ) = y ^ (12 : ℕ) := by
    rw [← Real.rpow_natCast (y ^ (2.4 : ℝ)) 5, ← Real.rpow_mul hy, h24]
    norm_num
    rw [show (12 : ℝ) = ((12 : ℕ) : ℝ) by norm_num, Real.rpow_natCast]
  rw [← hpow]
  exact (pow_le_pow_iff_left₀ hc (Real.rpow_nonneg hy _) (by norm_num)).symm

theorem linearizeChannel_nonneg {v : ℤ} (hv : 0 ≤ v) :
    0 ≤ linearizeChannel v := by
  unfold linearizeChannel
  dsimp only
  have hx : (0 : ℝ) ≤ (v : ℝ) / 255 := by positivity
  split
  · positivity
  · exact Real.rpow_nonneg (div_nonneg (by linarith) (by norm_num)) _

theorem linearizeChannel_le_one {v : ℤ} (hv0 : 0 ≤ v) (hv : v ≤ 255) :
    linearizeChannel v ≤ 1 := by
  unfold linearizeChannel
  have hx0 : (0 : ℝ) ≤ (v : ℝ) / 255 := by positivity
  have hx1 : (v : ℝ) / 255 ≤ 1 := by
    rw [div_le_one (by norm_num)]
    exact_mod_cast hv
  dsimp only
  split
  · rw [div_le_one (by norm_num)]
    linarith
  · exact Real.rpow_le_one (div_nonneg (by linarith) (by norm_num))
      (by rw [div_le_one (by norm_num)]; linarith) (by norm_num)

theorem calculateLuminance_nonneg {c : RGB} (h : rgbInRange c) :
    0 ≤ calculateLuminance c := by
  obtain ⟨h1, _, h3, _, h5, _⟩ := h
  unfold calculateLuminance
  have := linearizeChannel_nonneg h1
  have := linearizeChannel_nonneg h3
  have := linearizeChannel_nonneg h5
  linarith

theorem calculateLuminance_le_one {c : RGB} (h : rgbInRange c) :
    calculateLuminance c ≤ 1 := by
  obtain ⟨h1, h2, h3, h4, h5, h6⟩ := h
  unfold calculateLuminance
  have := linearizeChannel_le_one h1 h2
  have := linearizeChannel_le_one h3 h4
  have := linearizeChannel_le_one h5 h6
  have := linearizeChannel_nonneg h1
  have := linearizeChannel_nonneg h3
  have := linearizeChannel_nonneg h5
  linarith

theorem getContrastRatio_comm (a b : RGB) :
    getContrastRatio a b = getContrastRatio b a := by
  unfold getContrastRatio
  dsimp only
  rw [max_comm, min_comm]

theorem getContrastRatio_self {x : RGB} (h : rgbInRange x) :
    getContrastRatio x x = 1 := by
  unfold getContrastRatio
  dsimp only
  have h0 := calculateLuminance_nonneg h
  simp only [max_self, min_self]
  rw [div_self (by linarith)]
  norm_num [jsRoundR]

theorem luminance_white : calculateLuminance whiteRGB = 1 := by
  unfold calculateLuminance whiteRGB linearizeChannel
  norm_num [Real.one_rpow]

theorem luminance_black : calculateLuminance blackRGB = 0 := by
  unfold calculateLuminance blackRGB linearizeChannel
  norm_num

theorem getContrastRatio_black_white :
    getContrastRatio blackRGB whiteRGB = 21 := by
  unfold getContrastRatio
  dsimp only
  rw [luminance_black, luminance_white]
  rw [max_eq_right (by norm_num), min_eq_left (by norm_num)]
  norm_num [jsRoundR]

theorem getContrastRatio_bounds {a b : RGB} (ha : rgbInRange a)
    (hb : rgbInRange b) :
    1 ≤ getContrastRatio a b ∧ getContrastRatio a b ≤ 21 := by
  unfold getContrastRatio
  dsimp only
  have ha0 := calculateLuminance_nonneg ha
  have ha1 := calculateLuminance_le_one ha
  have hb0 := calculateLuminance_nonneg hb
  have hb1 := calculateLuminance_le_one hb
  set l1 := calculateLuminance a
  set l2 := calculateLuminance b
  have hmin0 : 0 ≤ min l1 l2 := le_min ha0 hb0
  have hmax1 : max l1 l2 ≤ 1 := max_le ha1 hb1
  have hminmax : min l1 l2 ≤ max l1 l2 := min_le_max
  have hraw1 : 1 ≤ (max l1 l2 + 0.05) / (min l1 l2 + 0.05) :=
    (one_le_div (by linarith)).mpr (by linarith)
  have hraw21 : (max l1 l2 + 0.05) / (min l1 l2 + 0.05) ≤ 21 := by
    rw [div_le_iff₀ (by linarith)]
    linarith
  constructor
  · have h100 : (100 : ℤ) ≤ jsRoundR ((max l1 l2 + 0.05) / (min l1 l2 + 0.05) * 100) :=
      le_jsRoundR_of_le (by push_cast; linarith)
    have : ((100 : ℤ) : ℝ) ≤ (jsRoundR ((max l1 l2 + 0.05) / (min l1 l2 + 0.05) * 100) : ℝ) := by
      exact_mod_cast h100
    linarith
  · have h2100 : jsRoundR ((max l1 l2 + 0.05) / (min l1 l2 + 0.05) * 100) ≤ (2100 : ℤ) :=
      jsRoundR_le_of_le (by push_cast; linarith)
    have : (jsRoundR ((max l1 l2 + 0.05) / (min l1 l2 + 0.05) * 100) : ℝ) ≤ ((2100 : ℤ) : ℝ) := by
      exact_mod_cast h2100
    linarith

/-- **C6.** The contrast ratio is symmetric, equals 1 on identical colors,
equals exactly 21 on black vs white, and always lies in `[1, 21]` for
in-range RGB inputs. -/
theorem spec_C6_contrast_ratio_laws (a b x : RGB) (ha : rgbInRange a)
    (hb : rgbInRange b) (hx : rgbInRange x) :
    getContrastRatio a b = getContrastRatio b a ∧
    getContrastRatio x x = 1 ∧
    getContrastRatio blackRGB whiteRGB = 21 ∧
    1 ≤ getContrastRatio a b ∧ getContrastRatio a b ≤ 21 := by
  obtain ⟨hb1, hb21⟩ := getContrastRatio_bounds ha hb
  exact ⟨getContrastRatio_comm a b, getContrastRatio_self hx,
    getContrastRatio_black_white, hb1, hb21⟩

theorem spec_C6_witness :
    getContrastRatio blackRGB whiteRGB = getContrastRatio whiteRGB blackRGB ∧
    getContrastRatio blackRGB blackRGB = 1 ∧
    getContrastRatio blackRGB whiteRGB = 21 ∧
    1 ≤ getContrastRatio blackRGB whiteRGB ∧
    getContrastRatio blackRGB whiteRGB ≤ 21 :=
  spec_C6_contrast_ratio_laws blackRGB whiteRGB blackRGB
    (by norm_num [rgbInRange, blackRGB]) (by norm_num [rgbInRange, whiteRGB])
    (by norm_num [rgbInRange, blackRGB])

/-! ## Concrete luminance bounds

Lower bounds for the channels of rgb(55,147,200) (= hsl(202,57,50)) and
rgb(230,213,179) (= hsl(400,50,80)), via `le_rpow_24_iff`. -/

theorem linearize_55_lower : (0.03 : ℝ) ≤ linearizeChannel 55 := by
  unfold linearizeChannel
  dsimp only
  rw [if_neg (by norm_num)]
  rw [le_rpow_24_iff (by norm_num) (by norm_num)]
  norm_num

theorem linearize_147_lower : (0.28 : ℝ) ≤ linearizeChannel 147 := by
  unfold linearizeChannel
  dsimp only
  rw [if_neg (by norm_num)]
  rw [le_rpow_24_iff (by norm_num) (by norm_num)]
  norm_num

theorem linearize_200_lower : (0.55 : ℝ) ≤ linearizeChannel 200 := by
  unfold linearizeChannel
  dsimp only
  rw [if_neg (by norm_num)]
  rw [le_rpow_24_iff (by norm_num) (by norm_num)]
  norm_num

theorem linearize_230_lower : (0.7 : ℝ) ≤ linearizeChannel 230 := by
  unfold linearizeChannel
  dsimp only
  rw [if_neg (by norm_num)]
  rw [le_rpow_24_iff (by norm_num) (by norm_num)]
  norm_num

theorem linearize_213_lower : (0.6 : ℝ) ≤ linearizeChannel 213 := by
  unfold linearizeChannel
  dsimp only
  rw [if_neg (by norm_num)]
  rw [le_rpow_24_iff (by norm_num) (by norm_num)]
  norm_num

theorem linearize_179_lower : (0.4 : ℝ) ≤ linearizeChannel 179 := by
  unfold linearizeChannel
  dsimp only
  rw [if_neg (by norm_num)]
  rw [le_rpow_24_iff (by norm_num) (by norm_num)]
  norm_num

theorem luminance_scenarioA_lower :
    (0.24 : ℝ) ≤ calculateLuminance ⟨55, 147, 200⟩ := by
  unfold calculateLuminance
  have h1 := linearize_55_lower
  have h2 := linearize_147_lower
  have h3 := linearize_200_lower
  dsimp only
  linarith

theorem luminance_c9_lower :
    (0.6 : ℝ) ≤ calculateLuminance ⟨230, 213, 179⟩ := by
  unfold calculateLuminance
  have h1 := linearize_230_lower
  have h2 := linearize_213_lower
  have h3 := linearize_179_lower
  dsimp only
  linarith

theorem hslToRgb_scenarioA : hslToRgb ⟨202, 57, 50⟩ = ⟨55, 147, 200⟩ := by
  unfold hslToRgb hue2rgb
  norm_num [jsRound]

/-- A bright luminance makes the black-text ratio pass 4.5. -/
theorem blackRatio_ge {c : RGB} (hge : (0.24 : ℝ) ≤ calculateLuminance c)
    (_hle : calculateLuminance c ≤ 1) :
    (4.5 : ℝ) ≤ getContrastRatio c blackRGB := by
  unfold getContrastRatio
  dsimp only
  rw [luminance_black]
  rw [max_eq_left (by linarith), min_eq_right (by linarith)]
  have h450 : (450 : ℤ) ≤ jsRoundR ((calculateLuminance c + 0.05) / (0 + 0.05) * 100) :=
    le_jsRoundR_of_le (by
      push_cast
      rw [show ((0 : ℝ) + 0.05) = 0.05 by norm_num, div_mul_eq_mul_div,
        le_div_iff₀ (by norm_num)]
      linarith)
  have : ((450 : ℤ) : ℝ) ≤ (jsRoundR ((calculateLuminance c + 0.05) / (0 + 0.05) * 100) : ℝ) := by
    exact_mod_cast h450
  linarith

/-- A luminance above ~0.184 makes the white-text ratio fall below 4.5. -/
theorem whiteRatio_lt {c : RGB} (hge : (0.24 : ℝ) ≤ calculateLuminance c)
    (hle : calculateLuminance c ≤ 1) :
    getContrastRatio c whiteRGB < 4.5 := by
  unfold getContrastRatio
  dsimp only
  rw [luminance_white]
  rw [max_eq_right (by linarith), min_eq_left (by linarith)]
  have h449 : jsRoundR ((1 + 0.05) / (calculateLuminance c + 0.05) * 100) ≤ (449 : ℤ) :=
    jsRoundR_le_of_le (by
      push_cast
      rw [div_mul_eq_mul_div, div_le_iff₀ (by linarith)]
      nlinarith)
  have : (jsRoundR ((1 + 0.05) / (calculateLuminance c + 0.05) * 100) : ℝ) ≤ ((449 : ℤ) : ℝ) := by
    exact_mod_cast h449
  linarith

/-- **C2, counterexample.** On scenario A's color `hsl(202,57,50)`
(rgb(55,147,200)), `findAccessibleColor` with its default options (the
`'both'` text-color mode, target ratio 4.5) returns the color unchanged —
its score `max(blackRatio, whiteRatio) ≈ 6.17` already meets the target —
and the returned color does **not** pass all four flags: its white-text
ratio (≈3.4) is below 4.5. -/
theorem spec_C2_counterexample :
    findAccessibleColor ⟨202, 57, 50⟩ {} = ⟨202, 57, 50⟩ ∧
    ¬ (getContrastInfo (hslToRgb (findAccessibleColor ⟨202, 57, 50⟩ {}))).passesAllFour := by
  have hrange : rgbInRange ⟨55, 147, 200⟩ := by norm_num [rgbInRange]
  have hle := calculateLuminance_le_one hrange
  have hge := luminance_scenarioA_lower
  have hscore : ((4.5 : ℚ) : ℝ) ≤ calculateAccessibilityScore ⟨202, 57, 50⟩ "both" := by
    unfold calculateAccessibilityScore
    rw [hslToRgb_scenarioA]
    rw [if_neg (by decide), if_neg (by decide)]
    have := blackRatio_ge hge hle
    have : (4.5 : ℝ) ≤ max (getContrastRatio ⟨55, 147, 200⟩ blackRGB)
        (getContrastRatio ⟨55, 147, 200⟩ whiteRGB) :=
      le_trans this (le_max_left _ _)
    push_cast
    linarith
  have hresult : findAccessibleColor ⟨202, 57, 50⟩ {} = ⟨202, 57, 50⟩ := by
    unfold findAccessibleColor
    rw [if_pos hscore]
  refine ⟨hresult, ?_⟩
  rw [hresult, hslToRgb_scenarioA]
  intro hall
  have hwhite := hall.2.2.1
  unfold ContrastInfo.whitePassesNormal getContrastInfo at hwhite
  dsimp only at hwhite
  have := whiteRatio_lt hge hle
  linarith

/-- The invariant of the `findFullyAccessibleColor` loops: every stored
best candidate passed `isColorAccessibleByMode`. -/
def ffacInv (accessibilityMode : String) (st : Option (HSL × ℚ)) : Prop :=
  ∀ p : HSL × ℚ, st = some p →
    isColorAccessibleByMode (getContrastInfo (hslToRgb p.1)) accessibilityMode

theorem ffacSatLoop_inv (originalHSL : HSL) (accessibilityMode : String)
    (h l : ℚ) (slist : List ℚ) (st : Option (HSL × ℚ))
    (hst : ffacInv accessibilityMode st) :
    ffacInv accessibilityMode
      (ffacSatLoop originalHSL accessibilityMode h l slist st) := by
  induction slist generalizing st with
  | nil => simpa [ffacSatLoop] using hst
  | cons s rest ih =>
    simp only [ffacSatLoop]
    split_ifs with h1 h2 h3
    · intro p hp
      rw [Option.some.injEq] at hp
      subst hp
      exact h1
    · exact ih _ fun p hp => by
        rw [Option.some.injEq] at hp
        subst hp
        exact h1
    · exact ih _ hst
    · exact ih _ hst

theorem ffacLightLoop_inv (originalHSL : HSL) (accessibilityMode : String)
    (h : ℚ) (satRange llist : List ℚ) (st : Option (HSL × ℚ))
    (hst : ffacInv accessibilityMode st) :
    ffacInv accessibilityMode
      (ffacLightLoop originalHSL accessibilityMode h satRange llist st) := by
  induction llist generalizing st with
  | nil => simpa [ffacLightLoop] using hst
  | cons l rest ih =>
    simp only [ffacLightLoop]
    split_ifs with h1
    · exact ffacSatLoop_inv _ _ _ _ _ _ hst
    · exact ih _ (ffacSatLoop_inv _ _ _ _ _ _ hst)

theorem ffacHueLoop_inv (originalHSL : HSL) (accessibilityMode : String)
    (satRange lightRange hlist : List ℚ) (st : Option (HSL × ℚ))
    (hst : ffacInv accessibilityMode st) :
    ffacInv accessibilityMode
      (ffacHueLoop originalHSL accessibilityMode satRange lightRange hlist st) := by
  induction hlist generalizing st with
  | nil => simpa [ffacHueLoop] using hst
  | cons h rest ih =>
    simp only [ffacHueLoop]
    split_ifs with h1
    · exact ffacLightLoop_inv _ _ _ _ _ _ hst
    · exact ih _ (ffacLightLoop_inv _ _ _ _ _ _ hst)

/-- **C2 (amended).** The search that enforces Full accessibility mode is
`findFullyAccessibleColor` (`ui-controller.js`): whenever it succeeds
(returns a color) under mode `"full"`, the returned color's accessibility
evaluation passes all four flags.  (The cited `findAccessibleColor` of
`accessibility.js` guarantees only that the better of the two ratios meets
the target; on scenario A's color it returns the input unchanged, which
fails the white-normal flag — see the counterexample.) -/
theorem spec_C2_full_mode_passes_all_four (originalHSL : HSL)
    (mode : RenderMode) :
    (findFullyAccessibleColor originalHSL mode "full").elim True
      (fun c => (getContrastInfo (hslToRgb c)).passesAllFour) := by
  unfold findFullyAccessibleColor
  dsimp only
  cases hcase : ffacHueLoop originalHSL "full"
      ((uiSearchRanges originalHSL mode).saturation.take 6)
      (uiSearchRanges originalHSL mode).lightness
      ((uiSearchRanges originalHSL mode).hue.take 8) none with
  | none => simp [hcase]
  | some p =>
    have hinv := ffacHueLoop_inv originalHSL "full"
      ((uiSearchRanges originalHSL mode).saturation.take 6)
      (uiSearchRanges originalHSL mode).lightness
      ((uiSearchRanges originalHSL mode).hue.take 8) none
      (fun q hq => by cases hq) p hcase
    unfold isColorAccessibleByMode at hinv
    rw [if_pos rfl] at hinv
    simp only [hcase, Option.map_some', Option.elim]
    exact hinv

/-- Any accessibility score of a color whose RGB form is in range is at
most 21 (the contrast-ratio ceiling). -/
theorem calculateAccessibilityScore_le_21 (hsl : HSL) (t : String)
    (h : rgbInRange (hslToRgb hsl)) :
    calculateAccessibilityScore hsl t ≤ 21 := by
  have hb : rgbInRange blackRGB := by norm_num [rgbInRange, blackRGB]
  have hw : rgbInRange whiteRGB := by norm_num [rgbInRange, whiteRGB]
  unfold calculateAccessibilityScore
  dsimp only
  split_ifs
  · exact (getContrastRatio_bounds h hb).2
  · exact (getContrastRatio_bounds h hw).2
  · exact max_le (getContrastRatio_bounds h hb).2 (getContrastRatio_bounds h hw).2

/-- **C9 (amended).** `findAccessibleColor` always returns a triple; when
the original color does not already meet the target score, the result is
`clampHSL` of something, hence has hue in `[0,360)` and saturation and
lightness in `[0,100]`; and when the staged search and the hue-preserving
fallback table both fail to reach the target, the result is exactly the
clamped canonical accessible swatch of the original hue's family.  (When
the original color already meets the target, it is returned as-is, without
clamping — see the counterexample.) -/
theorem spec_C9_search_totality (hsl : HSL) (opts : SearchOptions)
    (hfail : calculateAccessibilityScore hsl opts.textColor < (opts.targetRatio : ℝ)) :
    hslInRange (findAccessibleColor hsl opts) ∧
    ((findAccessibleSearch hsl opts).bestScore < (opts.targetRatio : ℝ) →
      findAccessibleColor hsl opts =
        clampHSL (getAccessibleColorForHueFamily (getHueFamily hsl.h))) := by
  unfold findAccessibleColor
  rw [if_neg (not_le.mpr hfail)]
  dsimp only
  constructor
  · split_ifs <;> exact clampHSL_inRange _
  · intro hlt
    rw [if_pos hlt]

theorem hslToRgb_witnessC9 : hslToRgb ⟨0, 50, 50⟩ = ⟨191, 64, 64⟩ := by
  unfold hslToRgb hue2rgb
  norm_num [jsRound]

theorem spec_C9_witness :
    hslInRange (findAccessibleColor ⟨0, 50, 50⟩
      { targetRatio := 100 }) ∧
    ((findAccessibleSearch ⟨0, 50, 50⟩ { targetRatio := 100 }).bestScore <
        ((SearchOptions.mk 100 150 true true "both" 0.8).targetRatio : ℝ) →
      findAccessibleColor ⟨0, 50, 50⟩ { targetRatio := 100 } =
        clampHSL (getAccessibleColorForHueFamily (getHueFamily (HSL.mk 0 50 50).h))) :=
  spec_C9_search_totality ⟨0, 50, 50⟩ { targetRatio := 100 } (by
    have hrange : rgbInRange (hslToRgb ⟨0, 50, 50⟩) := by
      rw [hslToRgb_witnessC9]
      norm_num [rgbInRange]
    have h21 := calculateAccessibilityScore_le_21 ⟨0, 50, 50⟩ "both" hrange
    have : ((100 : ℚ) : ℝ) = 100 := by norm_num
    calc calculateAccessibilityScore ⟨0, 50, 50⟩
          (SearchOptions.mk 100 150 true true "both" 0.8).textColor ≤ 21 := h21
      _ < ((SearchOptions.mk 100 150 true true "both" 0.8).targetRatio : ℝ) := by
          norm_num)

theorem hslToRgb_c9cx : hslToRgb ⟨400, 50, 80⟩ = ⟨230, 213, 179⟩ := by
  unfold hslToRgb hue2rgb
  norm_num [jsRound]

/-- **C9, counterexample.** On the out-of-range input `hsl(400,50,80)`
(whose RGB form rgb(230,213,179) already has black-text contrast above
4.5), `findAccessibleColor` takes the early return and hands back the input
unchanged: the result's hue is 400, not in `[0,360)` — the components of
the result are not always clamped to valid ranges. -/
theorem spec_C9_counterexample :
    findAccessibleColor ⟨400, 50, 80⟩ {} = ⟨400, 50, 80⟩ ∧
    ¬ hslInRange (findAccessibleColor ⟨400, 50, 80⟩ {}) := by
  have hrange : rgbInRange ⟨230, 213, 179⟩ := by norm_num [rgbInRange]
  have hle := calculateLuminance_le_one hrange
  have hge : (0.24 : ℝ) ≤ calculateLuminance ⟨230, 213, 179⟩ := by
    have := luminance_c9_lower
    linarith
  have hscore : ((4.5 : ℚ) : ℝ) ≤ calculateAccessibilityScore ⟨400, 50, 80⟩ "both" := by
    unfold calculateAccessibilityScore
    rw [hslToRgb_c9cx]
    rw [if_neg (by decide), if_neg (by decide)]
    have hblack := blackRatio_ge hge hle
    have : (4.5 : ℝ) ≤ max (getContrastRatio ⟨230, 213, 179⟩ blackRGB)
        (getContrastRatio ⟨230, 213, 179⟩ whiteRGB) :=
      le_trans hblack (le_max_left _ _)
    push_cast
    linarith
  have hresult : findAccessibleColor ⟨400, 50, 80⟩ {} = ⟨400, 50, 80⟩ := by
    unfold findAccessibleColor
    rw [if_pos hscore]
  refine ⟨hresult, ?_⟩
  rw [hresult]
  norm_num [hslInRange]

/-! ## CIEDE2000 lemmas -/

theorem ciedeG_comm (C1 C2 : ℝ) : ciedeG C2 C1 = ciedeG C1 C2 := by
  unfold ciedeG
  rw [add_comm C2 C1]

theorem deltahpFun_swap (h1p h2p : ℝ) :
    deltahpFun h2p h1p = -(deltahpFun h1p h2p) := by
  unfold deltahpFun
  dsimp only
  rcases lt_trichotomy h1p h2p with hlt | heq | hgt
  · by_cases habs : 180 < |h2p - h1p|
    · rw [if_pos (by rw [abs_sub_comm]; exact habs), if_pos habs,
        if_neg (by linarith), if_pos hlt]
      ring
    · rw [if_neg (by rw [abs_sub_comm]; exact habs), if_neg habs]
      ring
  · subst heq
    norm_num
  · by_cases habs : 180 < |h2p - h1p|
    · rw [if_pos (by rw [abs_sub_comm]; exact habs), if_pos habs,
        if_pos hgt, if_neg (by linarith)]
      ring
    · rw [if_neg (by rw [abs_sub_comm]; exact habs), if_neg habs]
      ring

theorem meanHueP_comm (h1p h2p : ℝ) : meanHueP h2p h1p = meanHueP h1p h2p := by
  unfold meanHueP
  rw [abs_sub_comm, add_comm h2p h1p]

theorem ciedeCombine_symm (L1 L2 C1p C2p h1p h2p : ℝ) :
    ciedeCombine L2 L1 C2p C1p h2p h1p = ciedeCombine L1 L2 C1p C2p h1p h2p := by
  unfold ciedeCombine
  dsimp only
  rw [meanHueP_comm, deltahpFun_swap, add_comm L2 L1, add_comm C2p C1p,
    mul_comm C2p C1p]
  rw [show -(deltahpFun h1p h2p) * Real.pi / 360 =
      -(deltahpFun h1p h2p * Real.pi / 360) by ring, Real.sin_neg]
  congr 1
  ring

theorem ciedeGOf_comm (lab1 lab2 : Lab) :
    ciedeGOf lab2 lab1 = ciedeGOf lab1 lab2 := by
  unfold ciedeGOf
  rw [ciedeG_comm]

theorem calculateDeltaE_symm (lab1 lab2 : Lab) :
    calculateDeltaE lab2 lab1 = calculateDeltaE lab1 lab2 := by
  unfold calculateDeltaE
  dsimp only
  rw [ciedeGOf_comm]
  exact ciedeCombine_symm _ _ _ _ _ _

theorem ciedeCombine_nonneg (L1 L2 C1p C2p h1p h2p : ℝ) :
    0 ≤ ciedeCombine L1 L2 C1p C2p h1p h2p := by
  unfold ciedeCombine
  dsimp only
  exact Real.sqrt_nonneg _

theorem deltahpFun_self (h : ℝ) : deltahpFun h h = 0 := by
  unfold deltahpFun
  simp

theorem calculateDeltaE_self (lab : Lab) : calculateDeltaE lab lab = 0 := by
  unfold calculateDeltaE ciedeCombine
  dsimp only
  rw [deltahpFun_self]
  simp [Real.sin_zero]

theorem sqrt_quadform_eq_zero {z x y R : ℝ} (hR : R ^ 2 < 4)
    (h : Real.sqrt (z ^ 2 + x ^ 2 + y ^ 2 + R * x * y) = 0) :
    z = 0 ∧ x = 0 ∧ y = 0 := by
  have hle : z ^ 2 + x ^ 2 + y ^ 2 + R * x * y ≤ 0 := Real.sqrt_eq_zero'.mp h
  have hkey : z ^ 2 + x ^ 2 + y ^ 2 + R * x * y =
      z ^ 2 + (x + R * y / 2) ^ 2 + (1 - R ^ 2 / 4) * y ^ 2 := by ring
  have h1 : 0 ≤ z ^ 2 := sq_nonneg z
  have h2 : 0 ≤ (x + R * y / 2) ^ 2 := sq_nonneg _
  have hcoef : 0 < 1 - R ^ 2 / 4 := by linarith
  have h3 : 0 ≤ (1 - R ^ 2 / 4) * y ^ 2 := mul_nonneg hcoef.le (sq_nonneg y)
  have hz : z ^ 2 = 0 := by nlinarith
  have hy2 : (1 - R ^ 2 / 4) * y ^ 2 = 0 := by nlinarith
  have hy : y = 0 := by
    rcases mul_eq_zero.mp hy2 with h' | h'
    · linarith
    · exact pow_eq_zero_iff (by norm_num) |>.mp h'
  have hx : x = 0 := by
    have hx2 : (x + R * y / 2) ^ 2 = 0 := by nlinarith
    have := pow_eq_zero_iff (n := 2) (by norm_num) |>.mp hx2
    rw [hy] at this
    linarith
  exact ⟨pow_eq_zero_iff (by norm_num) |>.mp hz, hx, hy⟩

theorem ciedeT_ge (meanHp : ℝ) : (0.07 : ℝ) ≤ ciedeT meanHp := by
  unfold ciedeT
  have c1 := Real.neg_one_le_cos ((meanHp - 30) * Real.pi / 180)
  have c1' := Real.cos_le_one ((meanHp - 30) * Real.pi / 180)
  have c2 := Real.neg_one_le_cos (2 * meanHp * Real.pi / 180)
  have c2' := Real.cos_le_one (2 * meanHp * Real.pi / 180)
  have c3 := Real.neg_one_le_cos ((3 * meanHp + 6) * Real.pi / 180)
  have c3' := Real.cos_le_one ((3 * meanHp + 6) * Real.pi / 180)
  have c4 := Real.neg_one_le_cos ((4 * meanHp - 63) * Real.pi / 180)
  have c4' := Real.cos_le_one ((4 * meanHp - 63) * Real.pi / 180)
  linarith

theorem ciedeRT_sq_lt_four (meanCp meanHp : ℝ) (hm : 0 ≤ meanCp) :
    (ciedeRT meanCp meanHp) ^ 2 < 4 := by
  unfold ciedeRT
  have h25 : (0 : ℝ) < 25 ^ 7 := by positivity
  have hm7 : (0 : ℝ) ≤ meanCp ^ 7 := by positivity
  have hq0 : (0 : ℝ) ≤ meanCp ^ 7 / (meanCp ^ 7 + 25 ^ 7) := by positivity
  have hq1 : meanCp ^ 7 / (meanCp ^ 7 + 25 ^ 7) < 1 := by
    rw [div_lt_one (by linarith)]
    linarith
  have hf2 : (Real.sqrt (meanCp ^ 7 / (meanCp ^ 7 + 25 ^ 7))) ^ 2 =
      meanCp ^ 7 / (meanCp ^ 7 + 25 ^ 7) := Real.sq_sqrt hq0
  have hs := Real.sin_sq_le_one
    (60 * Real.exp (-(((meanHp - 275) / 25) ^ 2)) * Real.pi / 180)
  have hs0 := sq_nonneg
    (Real.sin (60 * Real.exp (-(((meanHp - 275) / 25) ^ 2)) * Real.pi / 180))
  have hexp : (-2 * Real.sqrt (meanCp ^ 7 / (meanCp ^ 7 + 25 ^ 7)) *
      Real.sin (60 * Real.exp (-(((meanHp - 275) / 25) ^ 2)) * Real.pi / 180)) ^ 2 =
      4 * (Real.sqrt (meanCp ^ 7 / (meanCp ^ 7 + 25 ^ 7))) ^ 2 *
      (Real.sin (60 * Real.exp (-(((meanHp - 275) / 25) ^ 2)) * Real.pi / 180)) ^ 2 := by
    ring
  rw [hexp, hf2]
  nlinarith

/-- The tail of `calculateDeltaE` vanishes only when all three deltas
vanish. -/
theorem ciedeCombine_zero_parts {L1 L2 C1p C2p h1p h2p : ℝ}
    (hC1 : 0 ≤ C1p) (hC2 : 0 ≤ C2p)
    (h0 : ciedeCombine L1 L2 C1p C2p h1p h2p = 0) :
    L2 - L1 = 0 ∧ C2p - C1p = 0 ∧
    2 * Real.sqrt (C1p * C2p) *
      Real.sin (deltahpFun h1p h2p * Real.pi / 360) = 0 := by
  unfold ciedeCombine at h0
  dsimp only at h0
  have hmC : 0 ≤ (C1p + C2p) / 2 := by linarith
  have hR := ciedeRT_sq_lt_four ((C1p + C2p) / 2) (meanHueP h1p h2p) hmC
  obtain ⟨hz, hx, hy⟩ := sqrt_quadform_eq_zero hR h0
  have hT := ciedeT_ge (meanHueP h1p h2p)
  have hSL : (1 : ℝ) ≤ 1 + (0.015 * ((L1 + L2) / 2 - 50) ^ 2) /
      Real.sqrt (20 + ((L1 + L2) / 2 - 50) ^ 2) :=
    le_add_of_nonneg_right (by positivity)
  have hSC : (1 : ℝ) ≤ 1 + 0.045 * ((C1p + C2p) / 2) := by linarith
  have hSH : (1 : ℝ) ≤ 1 + 0.015 * ((C1p + C2p) / 2) * ciedeT (meanHueP h1p h2p) := by
    nlinarith
  refine ⟨?_, ?_, ?_⟩
  · rcases div_eq_zero_iff.mp hz with h' | h'
    · exact h'
    · linarith
  · rcases div_eq_zero_iff.mp hx with h' | h'
    · exact h'
    · linarith
  · rcases div_eq_zero_iff.mp hy with h' | h'
    · exact h'
    · linarith

theorem deltahpFun_range {h1p h2p : ℝ} (h10 : 0 ≤ h1p) (h11 : h1p < 360)
    (h20 : 0 ≤ h2p) (h21 : h2p < 360) :
    -180 ≤ deltahpFun h1p h2p ∧ deltahpFun h1p h2p ≤ 180 := by
  unfold deltahpFun
  dsimp only
  split_ifs with habs hlt
  · have hd : 180 < h2p - h1p := by
      rcases lt_abs.mp habs with h' | h'
      · exact h'
      · linarith
    constructor <;> linarith
  · have hle : h2p ≤ h1p := le_of_not_lt hlt
    have hd : 180 < -(h2p - h1p) := by
      rcases lt_abs.mp habs with h' | h'
      · linarith
      · exact h'
    constructor <;> linarith
  · have := abs_le.mp (not_lt.mp habs)
    exact ⟨this.1, this.2⟩

theorem deltahpFun_eq_zero {h1p h2p : ℝ} (h10 : 0 ≤ h1p) (h11 : h1p < 360)
    (h20 : 0 ≤ h2p) (h21 : h2p < 360) (h : deltahpFun h1p h2p = 0) :
    h1p = h2p := by
  unfold deltahpFun at h
  dsimp only at h
  split_ifs at h with habs hlt
  · linarith
  · linarith
  · linarith

theorem hueAngleDeg_range (y x : ℝ) :
    0 ≤ hueAngleDeg y x ∧ hueAngleDeg y x < 360 := by
  unfold hueAngleDeg
  dsimp only
  have hpi := Real.pi_pos
  have h1 : Complex.arg ⟨x, y⟩ ≤ Real.pi := Complex.arg_le_pi _
  have h2 : -Real.pi < Complex.arg ⟨x, y⟩ := Complex.neg_pi_lt_arg _
  have hub : Complex.arg ⟨x, y⟩ * 180 / Real.pi ≤ 180 := by
    rw [div_le_iff₀ hpi]
    nlinarith
  have hlb : -180 < Complex.arg ⟨x, y⟩ * 180 / Real.pi := by
    rw [lt_div_iff₀ hpi]
    nlinarith
  split_ifs with h
  · constructor <;> linarith
  · exact ⟨not_lt.mp h, by linarith⟩

theorem hueAngleDeg_inj {y1 x1 y2 x2 : ℝ}
    (h : hueAngleDeg y1 x1 = hueAngleDeg y2 x2) :
    Complex.arg ⟨x1, y1⟩ = Complex.arg ⟨x2, y2⟩ := by
  unfold hueAngleDeg at h
  dsimp only at h
  have hpi := Real.pi_pos
  have h1u : Complex.arg ⟨x1, y1⟩ ≤ Real.pi := Complex.arg_le_pi _
  have h1l : -Real.pi < Complex.arg ⟨x1, y1⟩ := Complex.neg_pi_lt_arg _
  have h2u : Complex.arg ⟨x2, y2⟩ ≤ Real.pi := Complex.arg_le_pi _
  have h2l : -Real.pi < Complex.arg ⟨x2, y2⟩ := Complex.neg_pi_lt_arg _
  have h1ub : Complex.arg ⟨x1, y1⟩ * 180 / Real.pi ≤ 180 := by
    rw [div_le_iff₀ hpi]; nlinarith
  have h1lb : -180 < Complex.arg ⟨x1, y1⟩ * 180 / Real.pi := by
    rw [lt_div_iff₀ hpi]; nlinarith
  have h2ub : Complex.arg ⟨x2, y2⟩ * 180 / Real.pi ≤ 180 := by
    rw [div_le_iff₀ hpi]; nlinarith
  have h2lb : -180 < Complex.arg ⟨x2, y2⟩ * 180 / Real.pi := by
    rw [lt_div_iff₀ hpi]; nlinarith
  have hcancel : ∀ a b : ℝ, a * 180 / Real.pi = b * 180 / Real.pi → a = b := by
    intro a b hab
    have h180 : (0 : ℝ) < 180 / Real.pi := by positivity
    have : a * (180 / Real.pi) = b * (180 / Real.pi) := by
      field_simp at hab ⊢
      linarith
    exact mul_right_cancel₀ (ne_of_gt h180) this
  split_ifs at h with ha hb hb
  · exact hcancel _ _ (by linarith)
  · exfalso
    linarith
  · exfalso
    linarith
  · exact hcancel _ _ h

theorem ciedeG_nonneg {C1 C2 : ℝ} (h1 : 0 ≤ C1) (h2 : 0 ≤ C2) :
    0 ≤ ciedeG C1 C2 := by
  unfold ciedeG
  dsimp only
  have hm : (0 : ℝ) ≤ (C1 + C2) / 2 := by linarith
  have h25 : (0 : ℝ) < 25 ^ 7 := by positivity
  have hm7 : (0 : ℝ) ≤ ((C1 + C2) / 2) ^ 7 := by positivity
  have hq1 : ((C1 + C2) / 2) ^ 7 / (((C1 + C2) / 2) ^ 7 + 25 ^ 7) ≤ 1 :=
    div_le_one_of_le₀ (by linarith) (by linarith)
  have := Real.sqrt_le_one.mpr hq1
  linarith

theorem ciedeGOf_nonneg (lab1 lab2 : Lab) : 0 ≤ ciedeGOf lab1 lab2 := by
  unfold ciedeGOf
  exact ciedeG_nonneg (Real.sqrt_nonneg _) (Real.sqrt_nonneg _)

theorem cPrimeOf_nonneg (G : ℝ) (lab : Lab) : 0 ≤ cPrimeOf G lab := by
  unfold cPrimeOf
  exact Real.sqrt_nonneg _

theorem cPrimeOf_eq_abs (G : ℝ) (lab : Lab) :
    cPrimeOf G lab = Complex.abs ⟨aPrimeOf G lab, lab.b⟩ := by
  unfold cPrimeOf
  rw [Complex.abs_apply, Complex.normSq_mk]

theorem cPrimeOf_eq_zero {G : ℝ} {lab : Lab} (h : cPrimeOf G lab = 0) :
    aPrimeOf G lab = 0 ∧ lab.b = 0 := by
  unfold cPrimeOf at h
  have hle := Real.sqrt_eq_zero'.mp h
  have h1 := mul_self_nonneg (aPrimeOf G lab)
  have h2 := mul_self_nonneg lab.b
  exact ⟨mul_self_eq_zero.mp (by linarith), mul_self_eq_zero.mp (by linarith)⟩

theorem aPrimeOf_zero {G : ℝ} {lab : Lab} (hG : 0 ≤ G)
    (h : aPrimeOf G lab = 0) : lab.a = 0 := by
  unfold aPrimeOf at h
  rcases mul_eq_zero.mp h with h' | h'
  · exact h'
  · linarith

theorem aPrimeOf_cancel {G : ℝ} {lab1 lab2 : Lab} (hG : 0 ≤ G)
    (h : aPrimeOf G lab1 = aPrimeOf G lab2) : lab1.a = lab2.a := by
  unfold aPrimeOf at h
  exact mul_right_cancel₀ (by linarith) h

theorem hPrimeOf_range (G : ℝ) (lab : Lab) :
    0 ≤ hPrimeOf G lab ∧ hPrimeOf G lab < 360 := by
  unfold hPrimeOf
  exact hueAngleDeg_range _ _

/-- **C8.** The CIEDE2000 distance is nonnegative, symmetric in its two
arguments, and vanishes exactly on equal LAB values. -/
theorem spec_C8_ciede2000_metric_laws (lab1 lab2 : Lab) :
    0 ≤ calculateDeltaE lab1 lab2 ∧
    calculateDeltaE lab1 lab2 = calculateDeltaE lab2 lab1 ∧
    (calculateDeltaE lab1 lab2 = 0 ↔ lab1 = lab2) := by
  refine ⟨?_, (calculateDeltaE_symm lab1 lab2).symm, ?_, ?_⟩
  · unfold calculateDeltaE
    dsimp only
    exact ciedeCombine_nonneg _ _ _ _ _ _
  · intro h0
    unfold calculateDeltaE at h0
    dsimp only at h0
    set G := ciedeGOf lab1 lab2 with hGdef
    obtain ⟨hL, hC, hH⟩ := ciedeCombine_zero_parts
      (cPrimeOf_nonneg G lab1) (cPrimeOf_nonneg G lab2) h0
    have hG : 0 ≤ G := ciedeGOf_nonneg lab1 lab2
    have hLeq : lab1.L = lab2.L := by linarith
    have hCeq : cPrimeOf G lab1 = cPrimeOf G lab2 := by linarith
    by_cases hzero : cPrimeOf G lab1 = 0
    · have hz2 : cPrimeOf G lab2 = 0 := by rw [← hCeq]; exact hzero
      obtain ⟨ha1, hb1⟩ := cPrimeOf_eq_zero hzero
      obtain ⟨ha2, hb2⟩ := cPrimeOf_eq_zero hz2
      have ha1' := aPrimeOf_zero hG ha1
      have ha2' := aPrimeOf_zero hG ha2
      cases lab1
      cases lab2
      simp only [Lab.mk.injEq]
      simp_all
    · have hCpos : 0 < cPrimeOf G lab1 :=
        lt_of_le_of_ne (cPrimeOf_nonneg G lab1) (Ne.symm hzero)
      have hprod : 0 < cPrimeOf G lab1 * cPrimeOf G lab2 := by
        rw [← hCeq]
        exact mul_pos hCpos hCpos
      have hsqrtpos : 0 < Real.sqrt (cPrimeOf G lab1 * cPrimeOf G lab2) :=
        Real.sqrt_pos.mpr hprod
      have hsin : Real.sin (deltahpFun (hPrimeOf G lab1) (hPrimeOf G lab2) *
          Real.pi / 360) = 0 := by
        rcases mul_eq_zero.mp hH with h' | h'
        · rcases mul_eq_zero.mp h' with h'' | h''
          · norm_num at h''
          · linarith
        · exact h'
      obtain ⟨hr10, hr11⟩ := hPrimeOf_range G lab1
      obtain ⟨hr20, hr21⟩ := hPrimeOf_range G lab2
      obtain ⟨hd1, hd2⟩ := deltahpFun_range hr10 hr11 hr20 hr21
      have hpi := Real.pi_pos
      have hub : deltahpFun (hPrimeOf G lab1) (hPrimeOf G lab2) *
          Real.pi / 360 < Real.pi := by
        rw [div_lt_iff₀ (by norm_num : (0 : ℝ) < 360)]
        nlinarith
      have hlb : -Real.pi < deltahpFun (hPrimeOf G lab1) (hPrimeOf G lab2) *
          Real.pi / 360 := by
        rw [lt_div_iff₀ (by norm_num : (0 : ℝ) < 360)]
        nlinarith
      have hθ := (Real.sin_eq_zero_iff_of_lt_of_lt hlb hub).mp hsin
      have hdzero : deltahpFun (hPrimeOf G lab1) (hPrimeOf G lab2) = 0 := by
        have hmul : deltahpFun (hPrimeOf G lab1) (hPrimeOf G lab2) *
            Real.pi = 0 := by
          rcases div_eq_zero_iff.mp hθ with h' | h'
          · exact h'
          · norm_num at h'
        rcases mul_eq_zero.mp hmul with h' | h'
        · exact h'
        · exact absurd h' (ne_of_gt hpi)
      have hheq : hPrimeOf G lab1 = hPrimeOf G lab2 :=
        deltahpFun_eq_zero hr10 hr11 hr20 hr21 hdzero
      have harg : Complex.arg ⟨aPrimeOf G lab1, lab1.b⟩ =
          Complex.arg ⟨aPrimeOf G lab2, lab2.b⟩ := by
        apply hueAngleDeg_inj
        unfold hPrimeOf at hheq
        exact hheq
      have habs : Complex.abs ⟨aPrimeOf G lab1, lab1.b⟩ =
          Complex.abs ⟨aPrimeOf G lab2, lab2.b⟩ := by
        rw [← cPrimeOf_eq_abs, ← cPrimeOf_eq_abs]
        exact hCeq
      have hz12 : (⟨aPrimeOf G lab1, lab1.b⟩ : ℂ) = ⟨aPrimeOf G lab2, lab2.b⟩ :=
        Complex.ext_abs_arg habs harg
      have ha : aPrimeOf G lab1 = aPrimeOf G lab2 := congrArg Complex.re hz12
      have hb : lab1.b = lab2.b := congrArg Complex.im hz12
      have ha' : lab1.a = lab2.a := aPrimeOf_cancel hG ha
      cases lab1
      cases lab2
      simp only [Lab.mk.injEq]
      exact ⟨hLeq, ha', hb⟩
  · intro h
    rw [h]
    exact calculateDeltaE_self lab2

end CSG
